import Mathlib

/-!
Verification of the DiscountServices lifecycle rules (discount and promotion
routers) against their natural-language specification.

Modelling conventions for the shallow embedding:
* Dates (`valid_from`, `valid_to`, `date.today()`) are modelled as day
  ordinals (`Nat`); the only operations the source performs on them are
  comparisons, which agree with the ordinal order.
* SQL `DECIMAL` values are modelled as `Int`; the source performs no
  arithmetic on them, only storage, equality and display formatting, and the
  display precision (`:.1f` / `:.2f`) is elided in the rendered strings.
* Each router's database tables are a record of lists: the base table plus
  the two association tables (lists of id/name pairs), together with the
  `IDENTITY` counter that yields `OUTPUT INSERTED.id`.
* A handler is a function from the database state (plus the role the
  authentication service reported for the caller) to the new state and an
  `Except HTTPErr` result.  `conn.autocommit = False` + `conn.rollback()` in
  the source means a failed transaction returns the unchanged input state.
* Python exceptions inside a handler's `try` block are modelled by `Exn`:
  both `HTTPException`s raised by the handler body and database errors (whose
  text contains `UNIQUE` on a unique-key violation) are caught by the
  `except Exception` block, exactly as in the source, where
  `str(HTTPException(404, d))` is `"404: " ++ d`.
-/

namespace DiscountServices

/-- Days since some epoch: the embedding of `datetime.date`. -/
abbrev Day := Nat

/-- The embedding of `fastapi.HTTPException`: status code plus detail. -/
structure HTTPErr where
  code : Nat
  detail : String
deriving Repr, DecidableEq

/-- An exception raised inside a handler's `try` block: either an
`HTTPException` raised by the handler itself or a database driver error
carrying the driver's message text. -/
inductive Exn where
  | http : Nat → String → Exn
  | db : String → Exn
deriving Repr, DecidableEq

/-- `str(e)` for an exception: Python renders `HTTPException(c, d)` as
`"{c}: {d}"` and a driver error as its message. -/
def exnStr : Exn → String
  | Exn.http c d =>
    let cs := toString c
    cs ++ ": " ++ d
  | Exn.db m => m

/-- `listStartsWith pat l`: the character list `l` starts with `pat`. -/
def listStartsWith : List Char → List Char → Bool
  | [], _ => true
  | _ :: _, [] => false
  | p :: ps, c :: cs => p = c && listStartsWith ps cs

/-- `listHasSub pat l`: `pat` occurs as a contiguous run inside `l`. -/
def listHasSub (pat : List Char) : List Char → Bool
  | [] => listStartsWith pat []
  | c :: cs => listStartsWith pat (c :: cs) || listHasSub pat cs

/-- The embedding of Python's `"UNIQUE" in str(e).upper()`. -/
def strContainsUnique (s : String) : Bool :=
  listHasSub "UNIQUE".data (s.data.map Char.toUpper)

/-- A driver message for a unique-key violation, as raised by SQL Server on
a duplicate `name`; the handlers only inspect it for the token `UNIQUE`. -/
def uniqueViolationMsg : String := "Violation of UNIQUE KEY constraint"

/-- The shared `except Exception` block of the create/update handlers:
`if "UNIQUE" in str(e).upper()` answer 409 with the duplicate-name detail,
otherwise 500 with the handler's fallback detail prefix. -/
def sqlCatch (conflictDetail fallbackPfx : String) (e : Exn) : HTTPErr :=
  let m := exnStr e
  if strContainsUnique m then
    { code := 409, detail := conflictDetail }
  else
    { code := 500, detail := fallbackPfx ++ m }

/-- The embedding of `validate_token_and_roles`, after the external identity
service has successfully reported `userRole` for the bearer credential:
403 when the role is not in the endpoint's allow-list. -/
def validate_token_and_roles (userRole : String) (allowed : List String) :
    Except HTTPErr Unit :=
  if userRole ∈ allowed then Except.ok ()
  else
    Except.error
      { code := 403,
        detail := "Access denied. Role \x27" ++ userRole ++ "\x27 is not authorized." }

/-- `rowsFor assoc i`: the association-table query
`SELECT name FROM ..._applicable_... WHERE ..._id = i`. -/
def rowsFor (assoc : List (Nat × String)) (i : Nat) : List String :=
  (assoc.filter (fun e => e.1 == i)).map (fun e => e.2)

/-- Duplicate removal keeping first occurrences, with an accumulator of the
values already seen: the embedding of SQL `DISTINCT` in the aggregation
subqueries. -/
def dedupAux [DecidableEq α] (seen : List α) : List α → List α
  | [] => []
  | x :: xs => if x ∈ seen then dedupAux seen xs else x :: dedupAux (x :: seen) xs

/-- Duplicate removal keeping first occurrences. -/
def dedup [DecidableEq α] (l : List α) : List α := dedupAux [] l

/-- Join a list of strings with a separator. -/
def joinSep (sep : String) : List String → String
  | [] => ""
  | [x] => x
  | x :: y :: xs => x ++ sep ++ joinSep sep (y :: xs)

/-- The `STUFF((SELECT DISTINCT sep + name ... FOR XML PATH('')), ...)`
aggregation: `NULL` (`none`) when the entity has no association rows,
otherwise the distinct names joined by the separator. -/
def aggJoin (sep : String) (names : List String) : Option String :=
  match dedup names with
  | [] => none
  | x :: xs => some (joinSep sep (x :: xs))

/-- Split a character list at commas: the embedding of `str.split(',')`. -/
def splitCommaAux : List Char → List (List Char)
  | [] => [[]]
  | c :: cs =>
    let rest := splitCommaAux cs
    if c = ',' then [] :: rest
    else
      match rest with
      | [] => [[c]]
      | w :: ws => (c :: w) :: ws

/-- The embedding of Python's `str.split(',')`. -/
def splitComma (s : String) : List String :=
  (splitCommaAux s.data).map (fun l => String.mk l)

/-- ASCII uppercase of a string: the embedding of `str.upper()`. -/
def strUpper (s : String) : String := String.mk (s.data.map Char.toUpper)

/-! ## Discount router: data model (src/routers/discount.py) -/

/-- A row of the `discounts` base table. -/
structure DiscountRow where
  id : Nat
  name : String
  status : String
  application_type : String
  discount_type : String
  discount_value : Int
  minimum_spend : Int
  valid_from : Day
  valid_to : Day
  isDeleted : Bool
deriving Repr, DecidableEq

/-- The discount tables: base table, the two association tables, and the
`IDENTITY` counter producing `OUTPUT INSERTED.id`. -/
structure DiscountDB where
  discounts : List DiscountRow
  applicable_products : List (Nat × String)
  applicable_categories : List (Nat × String)
  nextId : Nat
deriving Repr, DecidableEq

/-- The `DiscountBase` pydantic payload (`DiscountCreate` = `DiscountUpdate`). -/
structure DiscountPayload where
  discountName : String
  applicationType : String
  selectedCategories : List String
  selectedProducts : List String
  discountType : String
  discountValue : Int
  minSpend : Int
  validFrom : Day
  validTo : Day
  status : String
deriving Repr, DecidableEq

/-- The `DiscountDetailOut` response model: the payload fields plus `id`. -/
structure DiscountDetailOut where
  id : Nat
  data : DiscountPayload
deriving Repr, DecidableEq

/-- The pointwise effect of the `auto_expire_discounts` bulk `UPDATE` on one
row: `WHERE valid_to < today AND status != 'expired' AND isDeleted = 0`. -/
def expireDiscountRow (today : Day) (r : DiscountRow) : DiscountRow :=
  if r.valid_to < today ∧ r.status ≠ "expired" ∧ r.isDeleted = false then
    { r with status := "expired" }
  else r

/-- The embedding of `auto_expire_discounts`: the bulk `UPDATE` touches every
matching row of the base table and commits. -/
def auto_expire_discounts (today : Day) (db : DiscountDB) : DiscountDB :=
  { db with discounts := db.discounts.map (expireDiscountRow today) }

/-- Association inserts of discount create/update: only the selection list
matching `applicationType` is inserted, none for `all_products`. -/
def discount_insert_assocs (db : DiscountDB) (i : Nat) (p : DiscountPayload) :
    DiscountDB :=
  if p.applicationType = "specific_products" then
    { db with applicable_products :=
        db.applicable_products ++ p.selectedProducts.map (fun n => (i, n)) }
  else if p.applicationType = "specific_categories" then
    { db with applicable_categories :=
        db.applicable_categories ++ p.selectedCategories.map (fun n => (i, n)) }
  else db

/-- The transaction body of `create_discount`: `INSERT ... OUTPUT INSERTED.id`
(raising the driver's unique-key error when `name` collides with a stored
row) followed by the association inserts. -/
def create_discount_tx (db : DiscountDB) (p : DiscountPayload) :
    Except Exn (DiscountDB × Nat) :=
  if db.discounts.any (fun r => r.name == p.discountName) then
    Except.error (Exn.db uniqueViolationMsg)
  else
    let newId := db.nextId
    let row : DiscountRow :=
      { id := newId, name := p.discountName, status := p.status,
        application_type := p.applicationType, discount_type := p.discountType,
        discount_value := p.discountValue, minimum_spend := p.minSpend,
        valid_from := p.validFrom, valid_to := p.validTo, isDeleted := false }
    let db1 : DiscountDB :=
      { db with discounts := db.discounts ++ [row], nextId := newId + 1 }
    Except.ok (discount_insert_assocs db1 newId p, newId)

/-- The embedding of the `POST /discounts/` handler `create_discount`:
authorize (`admin`), run the transaction, and on any exception roll back
(state unchanged) and map it through the `except Exception` block. -/
def create_discount (role : String) (db : DiscountDB) (p : DiscountPayload) :
    DiscountDB × Except HTTPErr DiscountDetailOut :=
  match validate_token_and_roles role ["admin"] with
  | Except.error e => (db, Except.error e)
  | Except.ok _ =>
    match create_discount_tx db p with
    | Except.ok (db2, newId) => (db2, Except.ok { id := newId, data := p })
    | Except.error e =>
      (db,
       Except.error
         (sqlCatch
           ("A discount with the name \x27" ++ p.discountName ++ "\x27 already exists.")
           "Database error on create: " e))

/-- The embedding of the `GET /discounts/{id}` handler `get_discount`:
authorize, auto-expire, `SELECT ... WHERE id=? AND isDeleted = 0`, read the
association rows; the 404 raised for a missing row is caught by the
handler's own `except Exception` block and re-raised as 500, exactly as in
the source. -/
def get_discount (role : String) (today : Day) (db : DiscountDB) (i : Nat) :
    DiscountDB × Except HTTPErr DiscountDetailOut :=
  match validate_token_and_roles role ["admin", "manager", "cashier"] with
  | Except.error e => (db, Except.error e)
  | Except.ok _ =>
    let db := auto_expire_discounts today db
    let body : Except Exn DiscountDetailOut :=
      match db.discounts.find? (fun r => r.id == i && !r.isDeleted) with
      | none => Except.error (Exn.http 404 "Discount not found")
      | some r =>
        Except.ok
          { id := r.id,
            data :=
              { discountName := r.name, applicationType := r.application_type,
                selectedCategories := rowsFor db.applicable_categories i,
                selectedProducts := rowsFor db.applicable_products i,
                discountType := r.discount_type, discountValue := r.discount_value,
                minSpend := r.minimum_spend, validFrom := r.valid_from,
                validTo := r.valid_to, status := r.status } }
    match body with
    | Except.ok v => (db, Except.ok v)
    | Except.error e =>
      let m := exnStr e
      (db, Except.error { code := 500, detail := "Database error on get one: " ++ m })

/-- The transaction body of `update_discount`: select the non-deleted row
(404 when absent), `UPDATE` the base row (driver unique-key error when the
new name collides with another row), delete all association rows of the id
from both tables, then re-insert from the payload.  The `rowcount == 0`
re-check of the source is unreachable after the successful select inside the
same transaction. -/
def update_discount_tx (db : DiscountDB) (i : Nat) (p : DiscountPayload) :
    Except Exn DiscountDB :=
  match db.discounts.find? (fun r => r.id == i && !r.isDeleted) with
  | none => Except.error (Exn.http 404 "Discount not found")
  | some _ =>
    if db.discounts.any (fun r => r.name == p.discountName && r.id != i) then
      Except.error (Exn.db uniqueViolationMsg)
    else
      let db1 : DiscountDB :=
        { db with discounts := db.discounts.map (fun r =>
            if r.id == i && !r.isDeleted then
              { r with
                name := p.discountName, status := p.status,
                application_type := p.applicationType,
                discount_type := p.discountType,
                discount_value := p.discountValue, minimum_spend := p.minSpend,
                valid_from := p.validFrom, valid_to := p.validTo }
            else r) }
      let db2 : DiscountDB :=
        { db1 with
          applicable_products := db1.applicable_products.filter (fun e => e.1 != i),
          applicable_categories := db1.applicable_categories.filter (fun e => e.1 != i) }
      Except.ok (discount_insert_assocs db2 i p)

/-- The embedding of the `PUT /discounts/{id}` handler `update_discount`;
like create, a failed transaction rolls back and the 404 raised inside the
`try` block is re-wrapped as 500 by the `except Exception` block. -/
def update_discount (role : String) (db : DiscountDB) (i : Nat) (p : DiscountPayload) :
    DiscountDB × Except HTTPErr DiscountDetailOut :=
  match validate_token_and_roles role ["admin"] with
  | Except.error e => (db, Except.error e)
  | Except.ok _ =>
    match update_discount_tx db i p with
    | Except.ok db2 => (db2, Except.ok { id := i, data := p })
    | Except.error e =>
      (db,
       Except.error
         (sqlCatch
           ("A discount with the name \x27" ++ p.discountName ++ "\x27 already exists.")
           "Database error on update: " e))

/-- The transaction body of `delete_discount`: select the non-deleted row
(404 when absent) then `UPDATE discounts SET isDeleted = 1`. -/
def delete_discount_tx (db : DiscountDB) (i : Nat) : Except Exn DiscountDB :=
  match db.discounts.find? (fun r => r.id == i && !r.isDeleted) with
  | none => Except.error (Exn.http 404 "Discount not found")
  | some _ =>
    Except.ok
      { db with discounts := db.discounts.map (fun r =>
          if r.id == i && !r.isDeleted then { r with isDeleted := true } else r) }

/-- The embedding of the `DELETE /discounts/{id}` handler `delete_discount`;
the 404 raised inside the `try` block is re-wrapped as 500 by the
`except Exception` block, exactly as in the source. -/
def delete_discount (role : String) (db : DiscountDB) (i : Nat) :
    DiscountDB × Except HTTPErr String :=
  match validate_token_and_roles role ["admin"] with
  | Except.error e => (db, Except.error e)
  | Except.ok _ =>
    match delete_discount_tx db i with
    | Except.ok db2 => (db2, Except.ok "Discount deleted successfully.")
    | Except.error e =>
      let m := exnStr e
      (db, Except.error { code := 500, detail := "Database error on delete: " ++ m })

/-! ## Discount router: the list query and response shaping -/

/-- `ORDER BY id DESC` as a (non-strict) relation on rows. -/
def discIdGe (a b : DiscountRow) : Prop := b.id ≤ a.id

instance : DecidableRel discIdGe := fun a b => Nat.decLe b.id a.id

instance : IsTotal DiscountRow discIdGe := ⟨fun a b => Nat.le_total b.id a.id⟩

instance : IsTrans DiscountRow discIdGe :=
  ⟨fun _ _ _ h1 h2 => Nat.le_trans h2 h1⟩

/-- A row of the `get_all_discounts` SQL result set: the base columns plus
the two `STUFF(... FOR XML PATH(''))` aggregate strings. -/
structure DiscountSqlRow where
  id : Nat
  name : String
  status : String
  application_type : String
  discount_type : String
  discount_value : Int
  minimum_spend : Int
  valid_from : Day
  valid_to : Day
  products : Option String
  categories : Option String
deriving Repr, DecidableEq

/-- The `get_all_discounts` SQL query: non-deleted rows ordered by id
descending, each with its comma-joined distinct product and category names. -/
def discount_list_query (db : DiscountDB) : List DiscountSqlRow :=
  (List.insertionSort discIdGe (db.discounts.filter (fun r => !r.isDeleted))).map
    (fun r =>
      { id := r.id, name := r.name, status := r.status,
        application_type := r.application_type, discount_type := r.discount_type,
        discount_value := r.discount_value, minimum_spend := r.minimum_spend,
        valid_from := r.valid_from, valid_to := r.valid_to,
        products := aggJoin "," (rowsFor db.applicable_products r.id),
        categories := aggJoin "," (rowsFor db.applicable_categories r.id) })

/-- The `DiscountListOut` response model. -/
structure DiscountListOut where
  id : Nat
  name : String
  application : String
  discount : String
  minSpend : Int
  validFrom : Day
  validTo : Day
  status : String
  type : String
  application_type : String
  applicable_products : List String
  applicable_categories : List String
deriving Repr, DecidableEq

/-- The Python response-shaping loop body of `get_all_discounts`: split the
aggregate strings back into lists (`[]` for SQL `NULL`) and format the
application and discount display strings. -/
def shapeDiscountRow (row : DiscountSqlRow) : DiscountListOut :=
  let prods := match row.products with | none => [] | some s => splitComma s
  let cats := match row.categories with | none => [] | some s => splitComma s
  let nProds := prods.length
  let nCats := cats.length
  let app_str :=
    if row.application_type = "specific_products" then s!"{nProds} Product(s)"
    else if row.application_type = "specific_categories" then s!"{nCats} Category(s)"
    else "All Products"
  let v := row.discount_value
  let disc_str :=
    if row.discount_type = "percentage" then s!"{v}%"
    else s!"₱{v}"
  { id := row.id, name := row.name, application := app_str, discount := disc_str,
    minSpend := row.minimum_spend, validFrom := row.valid_from,
    validTo := row.valid_to, status := row.status, type := row.discount_type,
    application_type := row.application_type,
    applicable_products := prods, applicable_categories := cats }

/-- The embedding of the `GET /discounts/` handler `get_all_discounts`:
authorize (`admin`/`manager`/`cashier`), auto-expire, run the list query and
shape each row. -/
def get_all_discounts (role : String) (today : Day) (db : DiscountDB) :
    DiscountDB × Except HTTPErr (List DiscountListOut) :=
  match validate_token_and_roles role ["admin", "manager", "cashier"] with
  | Except.error e => (db, Except.error e)
  | Except.ok _ =>
    let db := auto_expire_discounts today db
    (db, Except.ok ((discount_list_query db).map shapeDiscountRow))

/-! ## Promotion router: data model (src/routers/promotion.py) -/

/-- A row of the `promotions` base table. -/
structure PromotionRow where
  id : Nat
  name : String
  description : Option String
  application_type : String
  promotion_type : String
  promotion_value : Option Int
  buy_quantity : Option Int
  get_quantity : Option Int
  bogo_discount_type : Option String
  bogo_discount_value : Option Int
  bogo_promotion_image : Option String
  min_quantity : Option Int
  valid_from : Day
  valid_to : Day
  status : String
  isDeleted : Bool
deriving Repr, DecidableEq

/-- The promotion tables: base table, the two association tables, and the
`IDENTITY` counter producing `OUTPUT INSERTED.id`. -/
structure PromotionDB where
  promotions : List PromotionRow
  applicable_products : List (Nat × String)
  applicable_categories : List (Nat × String)
  nextId : Nat
deriving Repr, DecidableEq

/-- The `PromotionBase` pydantic payload (`PromotionCreate` = `PromotionUpdate`). -/
structure PromotionPayload where
  promotionName : String
  description : Option String
  applicationType : String
  selectedProducts : List String
  selectedCategories : List String
  promotionType : String
  promotionValue : Option Int
  buyQuantity : Option Int
  getQuantity : Option Int
  bogoDiscountType : Option String
  bogoDiscountValue : Option Int
  bogoPromotionImage : Option String
  minQuantity : Option Int
  validFrom : Day
  validTo : Day
  status : String
deriving Repr, DecidableEq

/-- The `PromotionDetailOut` response model: the payload fields plus `id`. -/
structure PromotionDetailOut where
  id : Nat
  data : PromotionPayload
deriving Repr, DecidableEq

/-- The pointwise effect of the `auto_expire_promotions` bulk `UPDATE` on one
row: `WHERE valid_to < today AND status != 'expired' AND isDeleted = 0`. -/
def expirePromotionRow (today : Day) (r : PromotionRow) : PromotionRow :=
  if r.valid_to < today ∧ r.status ≠ "expired" ∧ r.isDeleted = false then
    { r with status := "expired" }
  else r

/-- The embedding of `auto_expire_promotions`. -/
def auto_expire_promotions (today : Day) (db : PromotionDB) : PromotionDB :=
  { db with promotions := db.promotions.map (expirePromotionRow today) }

/-- The validation block at the top of `create_promotion` and
`update_promotion` (the source repeats it verbatim in both handlers): for
`bogo`, force `applicationType` to `specific_products` and require 1-2
selected products and both bogo discount fields; otherwise require
`promotionValue` and a non-empty selection list matching `applicationType`. -/
def promotion_payload_validation (p : PromotionPayload) :
    Except HTTPErr PromotionPayload :=
  if p.promotionType = "bogo" then
    let p := { p with applicationType := "specific_products" }
    if p.selectedProducts = [] then
      Except.error { code := 400, detail := "At least one product must be selected for BOGO" }
    else if 2 < p.selectedProducts.length then
      Except.error { code := 400, detail := "BOGO promotions can have a maximum of 2 products" }
    else if p.bogoDiscountType = none ∨ p.bogoDiscountValue = none then
      Except.error { code := 400, detail := "BOGO discount type and value are required" }
    else Except.ok p
  else
    if p.promotionValue = none then
      Except.error { code := 400, detail := "Promotion value is required" }
    else if p.applicationType = "specific_categories" ∧ p.selectedCategories = [] then
      Except.error { code := 400, detail := "At least one category must be selected" }
    else if p.applicationType = "specific_products" ∧ p.selectedProducts = [] then
      Except.error { code := 400, detail := "At least one product must be selected" }
    else Except.ok p

/-- The transaction body of `create_promotion`: `INSERT ... OUTPUT INSERTED.id`
(driver unique-key error when `name` collides with a stored row), then insert
every entry of both selection lists as association rows, regardless of
`applicationType`. -/
def create_promotion_tx (db : PromotionDB) (p : PromotionPayload) :
    Except Exn (PromotionDB × Nat) :=
  if db.promotions.any (fun r => r.name == p.promotionName) then
    Except.error (Exn.db uniqueViolationMsg)
  else
    let newId := db.nextId
    let row : PromotionRow :=
      { id := newId, name := p.promotionName, description := p.description,
        application_type := p.applicationType, promotion_type := p.promotionType,
        promotion_value := p.promotionValue, buy_quantity := p.buyQuantity,
        get_quantity := p.getQuantity, bogo_discount_type := p.bogoDiscountType,
        bogo_discount_value := p.bogoDiscountValue,
        bogo_promotion_image := p.bogoPromotionImage, min_quantity := p.minQuantity,
        valid_from := p.validFrom, valid_to := p.validTo, status := p.status,
        isDeleted := false }
    let db1 : PromotionDB :=
      { db with promotions := db.promotions ++ [row], nextId := newId + 1 }
    let db2 : PromotionDB :=
      { db1 with
        applicable_products :=
          db1.applicable_products ++ p.selectedProducts.map (fun n => (newId, n)),
        applicable_categories :=
          db1.applicable_categories ++ p.selectedCategories.map (fun n => (newId, n)) }
    Except.ok (db2, newId)

/-- The embedding of the `POST /promotions/` handler `create_promotion`:
authorize (`admin`), validate (before any storage access), run the
transaction, and on any exception roll back and map it through the
`except Exception` block. -/
def create_promotion (role : String) (db : PromotionDB) (p : PromotionPayload) :
    PromotionDB × Except HTTPErr PromotionDetailOut :=
  match validate_token_and_roles role ["admin"] with
  | Except.error e => (db, Except.error e)
  | Except.ok _ =>
    match promotion_payload_validation p with
    | Except.error e => (db, Except.error e)
    | Except.ok p =>
      match create_promotion_tx db p with
      | Except.ok (db2, newId) => (db2, Except.ok { id := newId, data := p })
      | Except.error e =>
        (db,
         Except.error
           (sqlCatch
             ("A promotion with the name \x27" ++ p.promotionName ++ "\x27 already exists.")
             "Database error on create: " e))

/-- The embedding of the `GET /promotions/{id}` handler `get_promotion`;
the 404 raised for a missing row is caught by the handler's own
`except Exception` block and re-raised as 500, exactly as in the source. -/
def get_promotion (role : String) (today : Day) (db : PromotionDB) (i : Nat) :
    PromotionDB × Except HTTPErr PromotionDetailOut :=
  match validate_token_and_roles role ["admin", "manager", "cashier"] with
  | Except.error e => (db, Except.error e)
  | Except.ok _ =>
    let db := auto_expire_promotions today db
    let body : Except Exn PromotionDetailOut :=
      match db.promotions.find? (fun r => r.id == i && !r.isDeleted) with
      | none => Except.error (Exn.http 404 "Promotion not found")
      | some r =>
        Except.ok
          { id := r.id,
            data :=
              { promotionName := r.name, description := r.description,
                applicationType := r.application_type,
                selectedProducts := rowsFor db.applicable_products i,
                selectedCategories := rowsFor db.applicable_categories i,
                promotionType := r.promotion_type,
                promotionValue := r.promotion_value,
                buyQuantity := r.buy_quantity, getQuantity := r.get_quantity,
                bogoDiscountType := r.bogo_discount_type,
                bogoDiscountValue := r.bogo_discount_value,
                bogoPromotionImage := r.bogo_promotion_image,
                minQuantity := r.min_quantity, validFrom := r.valid_from,
                validTo := r.valid_to, status := r.status } }
    match body with
    | Except.ok v => (db, Except.ok v)
    | Except.error e =>
      let m := exnStr e
      (db, Except.error { code := 500, detail := "Database error on get one: " ++ m })

/-- The transaction body of `update_promotion`: select the non-deleted row
(404 when absent), `UPDATE` the base row (driver unique-key error when the
new name collides with another row), then delete-all-and-reinsert both
association tables from both selection lists.  The `rowcount == 0` re-check
of the source is unreachable after the successful select inside the same
transaction. -/
def update_promotion_tx (db : PromotionDB) (i : Nat) (p : PromotionPayload) :
    Except Exn PromotionDB :=
  match db.promotions.find? (fun r => r.id == i && !r.isDeleted) with
  | none => Except.error (Exn.http 404 "Promotion not found")
  | some _ =>
    if db.promotions.any (fun r => r.name == p.promotionName && r.id != i) then
      Except.error (Exn.db uniqueViolationMsg)
    else
      let db1 : PromotionDB :=
        { db with promotions := db.promotions.map (fun r =>
            if r.id == i && !r.isDeleted then
              { r with
                name := p.promotionName, description := p.description,
                application_type := p.applicationType,
                promotion_type := p.promotionType,
                promotion_value := p.promotionValue,
                buy_quantity := p.buyQuantity, get_quantity := p.getQuantity,
                bogo_discount_type := p.bogoDiscountType,
                bogo_discount_value := p.bogoDiscountValue,
                bogo_promotion_image := p.bogoPromotionImage,
                min_quantity := p.minQuantity, valid_from := p.validFrom,
                valid_to := p.validTo, status := p.status }
            else r) }
      let db2 : PromotionDB :=
        { db1 with
          applicable_products :=
            db1.applicable_products.filter (fun e => e.1 != i)
              ++ p.selectedProducts.map (fun n => (i, n)),
          applicable_categories :=
            db1.applicable_categories.filter (fun e => e.1 != i)
              ++ p.selectedCategories.map (fun n => (i, n)) }
      Except.ok db2

/-- The embedding of the `PUT /promotions/{id}` handler `update_promotion`:
authorize (`admin`), validate (before any storage access), run the
transaction, and on any exception roll back and map it through the
`except Exception` block. -/
def update_promotion (role : String) (db : PromotionDB) (i : Nat) (p : PromotionPayload) :
    PromotionDB × Except HTTPErr PromotionDetailOut :=
  match validate_token_and_roles role ["admin"] with
  | Except.error e => (db, Except.error e)
  | Except.ok _ =>
    match promotion_payload_validation p with
    | Except.error e => (db, Except.error e)
    | Except.ok p =>
      match update_promotion_tx db i p with
      | Except.ok db2 => (db2, Except.ok { id := i, data := p })
      | Except.error e =>
        (db,
         Except.error
           (sqlCatch
             ("A promotion with the name \x27" ++ p.promotionName ++ "\x27 already exists.")
             "Database error on update: " e))

/-- The transaction body of `delete_promotion`: select the non-deleted row
(404 when absent) then `UPDATE promotions SET isDeleted = 1`. -/
def delete_promotion_tx (db : PromotionDB) (i : Nat) : Except Exn PromotionDB :=
  match db.promotions.find? (fun r => r.id == i && !r.isDeleted) with
  | none => Except.error (Exn.http 404 "Promotion not found")
  | some _ =>
    Except.ok
      { db with promotions := db.promotions.map (fun r =>
          if r.id == i && !r.isDeleted then { r with isDeleted := true } else r) }

/-- The embedding of the `DELETE /promotions/{id}` handler `delete_promotion`;
the 404 raised inside the `try` block is re-wrapped as 500 by the
`except Exception` block, exactly as in the source. -/
def delete_promotion (role : String) (db : PromotionDB) (i : Nat) :
    PromotionDB × Except HTTPErr String :=
  match validate_token_and_roles role ["admin"] with
  | Except.error e => (db, Except.error e)
  | Except.ok _ =>
    match delete_promotion_tx db i with
    | Except.ok db2 => (db2, Except.ok "Promotion deleted successfully.")
    | Except.error e =>
      let m := exnStr e
      (db, Except.error { code := 500, detail := "Database error on delete: " ++ m })

/-! ## Promotion router: the list query, response shaping, and the public
active-promotions endpoint -/

/-- `ORDER BY id DESC` as a (non-strict) relation on promotion rows. -/
def promIdGe (a b : PromotionRow) : Prop := b.id ≤ a.id

instance : DecidableRel promIdGe := fun a b => Nat.decLe b.id a.id

instance : IsTotal PromotionRow promIdGe := ⟨fun a b => Nat.le_total b.id a.id⟩

instance : IsTrans PromotionRow promIdGe :=
  ⟨fun _ _ _ h1 h2 => Nat.le_trans h2 h1⟩

/-- A row of the `get_all_promotions` SQL result set: the selected columns
plus the two `STUFF(... FOR XML PATH(''))` aggregate strings (joined with
`", "` in this router). -/
structure PromotionSqlRow where
  id : Nat
  name : String
  application_type : String
  promotion_type : String
  promotion_value : Option Int
  buy_quantity : Option Int
  get_quantity : Option Int
  bogo_discount_type : Option String
  bogo_discount_value : Option Int
  valid_from : Day
  valid_to : Day
  status : String
  products : Option String
  categories : Option String
deriving Repr, DecidableEq

/-- The `get_all_promotions` SQL query: non-deleted rows ordered by id
descending, each with its `", "`-joined distinct product and category names. -/
def promotion_list_query (db : PromotionDB) : List PromotionSqlRow :=
  (List.insertionSort promIdGe (db.promotions.filter (fun r => !r.isDeleted))).map
    (fun r =>
      { id := r.id, name := r.name, application_type := r.application_type,
        promotion_type := r.promotion_type, promotion_value := r.promotion_value,
        buy_quantity := r.buy_quantity, get_quantity := r.get_quantity,
        bogo_discount_type := r.bogo_discount_type,
        bogo_discount_value := r.bogo_discount_value,
        valid_from := r.valid_from, valid_to := r.valid_to, status := r.status,
        products := aggJoin ", " (rowsFor db.applicable_products r.id),
        categories := aggJoin ", " (rowsFor db.applicable_categories r.id) })

/-- The `PromotionListOut` response model (the fields `get_all_promotions`
populates; the remaining optional fields stay at their `None` defaults
there). -/
structure PromotionListOut where
  id : Nat
  name : String
  type : String
  value : String
  products : String
  validFrom : Day
  validTo : Day
  status : String
  bogoProducts : Option (List String)
deriving Repr, DecidableEq

/-- Render an optional decimal/integer column the way a Python f-string
renders it (`None` for a missing value; display precision elided). -/
def fmtOpt (v : Option Int) : String :=
  match v with
  | none => "None"
  | some n => toString n

/-- The Python response-shaping loop body of `get_all_promotions`: type and
value display strings, and the single `products` display string chosen by
`application_type` (the `", "`-joined aggregate or `"N/A"`); for BOGO rows
with specific products the association product names are re-fetched into
`bogoProducts`. -/
def shapePromotionRow (db : PromotionDB) (row : PromotionSqlRow) : PromotionListOut :=
  let bq := fmtOpt row.buy_quantity
  let gq := fmtOpt row.get_quantity
  let type_str :=
    if row.promotion_type = "bogo" then s!"BOGO ({bq}+{gq})"
    else strUpper row.promotion_type
  let pv := fmtOpt row.promotion_value
  let bv := fmtOpt row.bogo_discount_value
  let value_str :=
    if row.promotion_type = "percentage" then s!"{pv}%"
    else if row.promotion_type = "fixed" then s!"₱{pv}"
    else if row.promotion_type = "bogo" then
      if row.bogo_discount_type = some "percentage" then s!"{bv}% off"
      else s!"₱{bv} off"
    else ""
  let products_str :=
    if row.application_type = "all_products" then "All Products"
    else if row.application_type = "specific_categories" then
      row.categories.getD "N/A"
    else row.products.getD "N/A"
  let bogo_products_list :=
    if row.application_type = "all_products" ∨
        row.application_type = "specific_categories" then none
    else if row.promotion_type = "bogo" then
      some (rowsFor db.applicable_products row.id)
    else none
  { id := row.id, name := row.name, type := type_str, value := value_str,
    products := products_str, validFrom := row.valid_from,
    validTo := row.valid_to, status := row.status,
    bogoProducts := bogo_products_list }

/-- The embedding of the `GET /promotions/` handler `get_all_promotions`:
authorize (`admin`/`manager`/`cashier`), auto-expire, run the list query and
shape each row. -/
def get_all_promotions (role : String) (today : Day) (db : PromotionDB) :
    PromotionDB × Except HTTPErr (List PromotionListOut) :=
  match validate_token_and_roles role ["admin", "manager", "cashier"] with
  | Except.error e => (db, Except.error e)
  | Except.ok _ =>
    let db := auto_expire_promotions today db
    (db, Except.ok ((promotion_list_query db).map (shapePromotionRow db)))

/-- The embedding of the `GET /promotions/active` handler
`get_active_promotions_public`: authorize with allow-list `["user"]`,
auto-expire, then return every non-deleted active row whose validity window
contains today, with its association rows. -/
def get_active_promotions_public (role : String) (today : Day) (db : PromotionDB) :
    PromotionDB × Except HTTPErr (List PromotionDetailOut) :=
  match validate_token_and_roles role ["user"] with
  | Except.error e => (db, Except.error e)
  | Except.ok _ =>
    let db := auto_expire_promotions today db
    let rows := db.promotions.filter (fun r =>
      decide (r.status = "active" ∧ r.isDeleted = false ∧
        r.valid_from ≤ today ∧ today ≤ r.valid_to))
    (db,
     Except.ok (rows.map (fun r =>
       { id := r.id,
         data :=
           { promotionName := r.name, description := r.description,
             applicationType := r.application_type,
             selectedProducts := rowsFor db.applicable_products r.id,
             selectedCategories := rowsFor db.applicable_categories r.id,
             promotionType := r.promotion_type,
             promotionValue := r.promotion_value,
             buyQuantity := r.buy_quantity, getQuantity := r.get_quantity,
             bogoDiscountType := r.bogo_discount_type,
             bogoDiscountValue := r.bogo_discount_value,
             bogoPromotionImage := r.bogo_promotion_image,
             minQuantity := r.min_quantity, validFrom := r.valid_from,
             validTo := r.valid_to, status := r.status } })))

/-! ## Shared predicates, fixtures and helper lemmas -/

/-- The handler answered with an error of HTTP status `c`. -/
def isErrCode (res : Except HTTPErr α) (c : Nat) : Prop :=
  ∃ e, res = Except.error e ∧ e.code = c

/-- An empty discount database, with the identity counter at 1. -/
def emptyDiscountDB : DiscountDB :=
  { discounts := [], applicable_products := [], applicable_categories := [], nextId := 1 }

/-- An empty promotion database, with the identity counter at 1. -/
def emptyPromotionDB : PromotionDB :=
  { promotions := [], applicable_products := [], applicable_categories := [], nextId := 1 }

/-- The spec's own example discount payload (`SALE10`). -/
def sampleDiscountPayload : DiscountPayload :=
  { discountName := "SALE10", applicationType := "all_products",
    selectedCategories := [], selectedProducts := [],
    discountType := "percentage", discountValue := 10, minSpend := 0,
    validFrom := 10, validTo := 400, status := "active" }

/-- A discount payload selecting three specific products. -/
def threeProductsPayload : DiscountPayload :=
  { discountName := "TRIO", applicationType := "specific_products",
    selectedCategories := [], selectedProducts := ["Latte", "Mocha", "Espresso"],
    discountType := "fixed_amount", discountValue := 5, minSpend := 0,
    validFrom := 10, validTo := 400, status := "active" }

/-- The same discount updated down to a single selected product. -/
def oneProductPayload : DiscountPayload :=
  { discountName := "TRIO", applicationType := "specific_products",
    selectedCategories := [], selectedProducts := ["Latte"],
    discountType := "fixed_amount", discountValue := 5, minSpend := 0,
    validFrom := 10, validTo := 400, status := "active" }

/-- A percentage promotion applying to all products, with selections
nonetheless provided. -/
def samplePromotionPayload : PromotionPayload :=
  { promotionName := "SUMMER", description := none,
    applicationType := "all_products",
    selectedProducts := ["Latte"], selectedCategories := ["Drinks"],
    promotionType := "percentage", promotionValue := some 15,
    buyQuantity := some 1, getQuantity := some 1,
    bogoDiscountType := none, bogoDiscountValue := none,
    bogoPromotionImage := none, minQuantity := none,
    validFrom := 10, validTo := 400, status := "active" }

/-- A BOGO promotion payload with two selected products and both bogo
discount fields set. -/
def sampleBogoPayload : PromotionPayload :=
  { promotionName := "BOGOFEST", description := none,
    applicationType := "all_products",
    selectedProducts := ["Latte", "Mocha"], selectedCategories := [],
    promotionType := "bogo", promotionValue := none,
    buyQuantity := some 1, getQuantity := some 1,
    bogoDiscountType := some "percentage", bogoDiscountValue := some 50,
    bogoPromotionImage := none, minQuantity := none,
    validFrom := 10, validTo := 400, status := "active" }

/-- A stored discount row used by the concrete-state theorems. -/
def storedDiscountRow : DiscountRow :=
  { id := 1, name := "SALE10", status := "active",
    application_type := "all_products", discount_type := "percentage",
    discount_value := 10, minimum_spend := 0, valid_from := 10,
    valid_to := 400, isDeleted := false }

/-- A soft-deleted discount row used by the concrete-state theorems. -/
def deletedDiscountRow : DiscountRow :=
  { id := 2, name := "OLD", status := "inactive",
    application_type := "all_products", discount_type := "percentage",
    discount_value := 5, minimum_spend := 0, valid_from := 10,
    valid_to := 400, isDeleted := true }

/-- A discount database holding one live and one soft-deleted row. -/
def twoRowDiscountDB : DiscountDB :=
  { discounts := [storedDiscountRow, deletedDiscountRow],
    applicable_products := [], applicable_categories := [], nextId := 3 }

/-- A stored promotion row used by the concrete-state theorems. -/
def storedPromotionRow : PromotionRow :=
  { id := 1, name := "SUMMER", description := none,
    application_type := "all_products", promotion_type := "percentage",
    promotion_value := some 15, buy_quantity := some 1, get_quantity := some 1,
    bogo_discount_type := none, bogo_discount_value := none,
    bogo_promotion_image := none, min_quantity := none,
    valid_from := 10, valid_to := 400, status := "active", isDeleted := false }

/-- A promotion database holding one live row. -/
def oneRowPromotionDB : PromotionDB :=
  { promotions := [storedPromotionRow],
    applicable_products := [], applicable_categories := [], nextId := 2 }

/-- The driver's unique-key message does contain the token `UNIQUE`. -/
lemma strContainsUnique_uniqueMsg : strContainsUnique uniqueViolationMsg = true := by
  decide

/-- A `sqlCatch` answer is always 409 or 500, never any other status. -/
lemma sqlCatch_code (c f : String) (e : Exn) :
    (sqlCatch c f e).code = 409 ∨ (sqlCatch c f e).code = 500 := by
  by_cases h : strContainsUnique (exnStr e) = true
  · left
    simp [sqlCatch, h]
  · right
    simp [sqlCatch, h]

/-- A `sqlCatch` answer never carries a status other than 409 or 500. -/
lemma sqlCatch_code_ne (c f : String) (e : Exn) (n : Nat)
    (h409 : n ≠ 409) (h500 : n ≠ 500) : (sqlCatch c f e).code ≠ n := by
  rcases sqlCatch_code c f e with h | h <;> rw [h] <;> omega

/-- `rowsFor` distributes over table append. -/
lemma rowsFor_append (l1 l2 : List (Nat × String)) (i : Nat) :
    rowsFor (l1 ++ l2) i = rowsFor l1 i ++ rowsFor l2 i := by
  simp [rowsFor, List.filter_append]

/-- Rows inserted for id `i` are read back verbatim for id `i`. -/
lemma rowsFor_map_self (names : List String) (i : Nat) :
    rowsFor (names.map (fun n => (i, n))) i = names := by
  induction names with
  | nil => rfl
  | cons x xs ih =>
    simp only [rowsFor] at ih ⊢
    simp [List.filter_cons, ih]

/-- After deleting every association row of id `i`, none remain for `i`. -/
lemma rowsFor_filter_ne (l : List (Nat × String)) (i : Nat) :
    rowsFor (l.filter (fun e => e.1 != i)) i = [] := by
  unfold rowsFor
  rw [List.filter_filter]
  have h : ∀ e : Nat × String, ((e.1 == i) && (e.1 != i)) = false := by
    intro e
    by_cases h : e.1 = i <;> simp [h]
  simp [h]

/-- A map that fixes every member of a list fixes the list. -/
lemma list_map_eq_self {α : Type} (f : α → α) (l : List α)
    (h : ∀ a ∈ l, f a = a) : l.map f = l := by
  induction l with
  | nil => rfl
  | cons x xs ih =>
    simp [h x (List.mem_cons_self x xs),
      ih (fun a ha => h a (List.mem_cons_of_mem x ha))]

/-- The auto-expire update is pointwise idempotent on discount rows. -/
lemma expireDiscountRow_idem (t : Day) (r : DiscountRow) :
    expireDiscountRow t (expireDiscountRow t r) = expireDiscountRow t r := by
  by_cases h : r.valid_to < t ∧ r.status ≠ "expired" ∧ r.isDeleted = false
  · simp [expireDiscountRow, h]
  · simp [expireDiscountRow, h]

/-- The auto-expire update is pointwise idempotent on promotion rows. -/
lemma expirePromotionRow_idem (t : Day) (r : PromotionRow) :
    expirePromotionRow t (expirePromotionRow t r) = expirePromotionRow t r := by
  by_cases h : r.valid_to < t ∧ r.status ≠ "expired" ∧ r.isDeleted = false
  · simp [expirePromotionRow, h]
  · simp [expirePromotionRow, h]

/-- Claim C2: before every list/get operation, the auto-expire sweep marks
every non-deleted row past its `validTo` as `expired`; it changes nothing on
rows that do not match; re-running it on its own output changes nothing
(idempotence); it is a no-op (in particular, error-free) when no row
matches; and each list/get handler leaves the store exactly in the swept
state. -/
theorem c2_auto_expire_sweep (today : Day) (db : DiscountDB) (pdb : PromotionDB)
    (role : String) (i : Nat) (hrole : role ∈ ["admin", "manager", "cashier"]) :
    (∀ r ∈ (auto_expire_discounts today db).discounts,
        r.isDeleted = false → r.valid_to < today → r.status = "expired")
    ∧ auto_expire_discounts today (auto_expire_discounts today db)
        = auto_expire_discounts today db
    ∧ ((∀ r ∈ db.discounts,
          ¬(r.valid_to < today ∧ r.status ≠ "expired" ∧ r.isDeleted = false)) →
        auto_expire_discounts today db = db)
    ∧ (∀ r : DiscountRow,
        ¬(r.valid_to < today ∧ r.status ≠ "expired" ∧ r.isDeleted = false) →
        expireDiscountRow today r = r)
    ∧ (∀ r ∈ (auto_expire_promotions today pdb).promotions,
        r.isDeleted = false → r.valid_to < today → r.status = "expired")
    ∧ auto_expire_promotions today (auto_expire_promotions today pdb)
        = auto_expire_promotions today pdb
    ∧ ((∀ r ∈ pdb.promotions,
          ¬(r.valid_to < today ∧ r.status ≠ "expired" ∧ r.isDeleted = false)) →
        auto_expire_promotions today pdb = pdb)
    ∧ (∀ r : PromotionRow,
        ¬(r.valid_to < today ∧ r.status ≠ "expired" ∧ r.isDeleted = false) →
        expirePromotionRow today r = r)
    ∧ (get_all_discounts role today db).1 = auto_expire_discounts today db
    ∧ (get_discount role today db i).1 = auto_expire_discounts today db
    ∧ (get_all_promotions role today pdb).1 = auto_expire_promotions today pdb
    ∧ (get_promotion role today pdb i).1 = auto_expire_promotions today pdb
    ∧ (get_active_promotions_public "user" today pdb).1
        = auto_expire_promotions today pdb := by
  have hvd : validate_token_and_roles role ["admin", "manager", "cashier"]
      = Except.ok () := by
    simp [validate_token_and_roles, hrole]
  have huser : validate_token_and_roles "user" ["user"] = Except.ok () := by
    simp [validate_token_and_roles]
  refine ⟨?_, ?_, ?_, ?_, ?_, ?_, ?_, ?_, ?_, ?_, ?_, ?_, ?_⟩
  · intro r hr hdel hto
    rcases List.mem_map.mp hr with ⟨r0, _, rfl⟩
    by_cases h : r0.valid_to < today ∧ r0.status ≠ "expired" ∧ r0.isDeleted = false
    · simp [expireDiscountRow, h]
    · push_neg at h
      simp only [expireDiscountRow] at hdel hto ⊢
      by_cases h2 : r0.valid_to < today ∧ r0.status ≠ "expired" ∧ r0.isDeleted = false
      · simp [h2]
      · simp only [if_neg h2] at hdel hto ⊢
        by_contra hne
        exact absurd (h hto (by simpa using hne)) (by simp [hdel])
  · simp [auto_expire_discounts, List.map_map, Function.comp_def,
      expireDiscountRow_idem]
  · intro hnone
    have : db.discounts.map (expireDiscountRow today) = db.discounts :=
      list_map_eq_self _ _ (fun r hr => by simp [expireDiscountRow, hnone r hr])
    simp [auto_expire_discounts, this]
  · intro r h
    simp [expireDiscountRow, h]
  · intro r hr hdel hto
    rcases List.mem_map.mp hr with ⟨r0, _, rfl⟩
    by_cases h : r0.valid_to < today ∧ r0.status ≠ "expired" ∧ r0.isDeleted = false
    · simp [expirePromotionRow, h]
    · push_neg at h
      simp only [expirePromotionRow] at hdel hto ⊢
      by_cases h2 : r0.valid_to < today ∧ r0.status ≠ "expired" ∧ r0.isDeleted = false
      · simp [h2]
      · simp only [if_neg h2] at hdel hto ⊢
        by_contra hne
        exact absurd (h hto (by simpa using hne)) (by simp [hdel])
  · simp [auto_expire_promotions, List.map_map, Function.comp_def,
      expirePromotionRow_idem]
  · intro hnone
    have : pdb.promotions.map (expirePromotionRow today) = pdb.promotions :=
      list_map_eq_self _ _ (fun r hr => by simp [expirePromotionRow, hnone r hr])
    simp [auto_expire_promotions, this]
  · intro r h
    simp [expirePromotionRow, h]
  · simp [get_all_discounts, hvd]
  · simp only [get_discount, hvd]
    split <;> rfl
  · simp [get_all_promotions, hvd]
  · simp only [get_promotion, hvd]
    split <;> rfl
  · simp only [get_active_promotions_public, huser]

/-- Witness for C2 at concrete inputs. -/
theorem c2_auto_expire_sweep_witness :
    (∀ r ∈ (auto_expire_discounts 500 twoRowDiscountDB).discounts,
        r.isDeleted = false → r.valid_to < 500 → r.status = "expired")
    ∧ auto_expire_discounts 500 (auto_expire_discounts 500 twoRowDiscountDB)
        = auto_expire_discounts 500 twoRowDiscountDB
    ∧ ((∀ r ∈ twoRowDiscountDB.discounts,
          ¬(r.valid_to < 500 ∧ r.status ≠ "expired" ∧ r.isDeleted = false)) →
        auto_expire_discounts 500 twoRowDiscountDB = twoRowDiscountDB)
    ∧ (∀ r : DiscountRow,
        ¬(r.valid_to < 500 ∧ r.status ≠ "expired" ∧ r.isDeleted = false) →
        expireDiscountRow 500 r = r)
    ∧ (∀ r ∈ (auto_expire_promotions 500 oneRowPromotionDB).promotions,
        r.isDeleted = false → r.valid_to < 500 → r.status = "expired")
    ∧ auto_expire_promotions 500 (auto_expire_promotions 500 oneRowPromotionDB)
        = auto_expire_promotions 500 oneRowPromotionDB
    ∧ ((∀ r ∈ oneRowPromotionDB.promotions,
          ¬(r.valid_to < 500 ∧ r.status ≠ "expired" ∧ r.isDeleted = false)) →
        auto_expire_promotions 500 oneRowPromotionDB = oneRowPromotionDB)
    ∧ (∀ r : PromotionRow,
        ¬(r.valid_to < 500 ∧ r.status ≠ "expired" ∧ r.isDeleted = false) →
        expirePromotionRow 500 r = r)
    ∧ (get_all_discounts "cashier" 500 twoRowDiscountDB).1
        = auto_expire_discounts 500 twoRowDiscountDB
    ∧ (get_discount "cashier" 500 twoRowDiscountDB 1).1
        = auto_expire_discounts 500 twoRowDiscountDB
    ∧ (get_all_promotions "cashier" 500 oneRowPromotionDB).1
        = auto_expire_promotions 500 oneRowPromotionDB
    ∧ (get_promotion "cashier" 500 oneRowPromotionDB 1).1
        = auto_expire_promotions 500 oneRowPromotionDB
    ∧ (get_active_promotions_public "user" 500 oneRowPromotionDB).1
        = auto_expire_promotions 500 oneRowPromotionDB :=
  c2_auto_expire_sweep 500 twoRowDiscountDB oneRowPromotionDB "cashier" 1
    (by decide)

/-- Claim C1: the claim says fetch-by-id answers NotFound (404) for a
missing or soft-deleted id and returns the entity for a live id.  The code
does raise `HTTPException(404, "... not found")` for such ids, but raises it
inside the handler's `try` block, whose `except Exception` re-wraps it into
a 500 `"Database error on get one: 404: ..."` — so the observable status for
a missing or soft-deleted id is 500, not 404, in both routers.  The
positive half (a live id returns the stored entity) does hold.  This
theorem evaluates the embedded handlers at such inputs: id 7 refers to no
stored discount, id 2 to a soft-deleted one, id 1 to a live one. -/
theorem c1_get_by_id_wraps_404_into_500 :
    (get_discount "admin" 50 twoRowDiscountDB 7).2
      = Except.error
          { code := 500, detail := "Database error on get one: 404: Discount not found" }
    ∧ (get_discount "admin" 50 twoRowDiscountDB 2).2
      = Except.error
          { code := 500, detail := "Database error on get one: 404: Discount not found" }
    ∧ (get_discount "admin" 50 twoRowDiscountDB 1).2
      = Except.ok { id := 1, data := sampleDiscountPayload }
    ∧ (get_promotion "admin" 50 oneRowPromotionDB 7).2
      = Except.error
          { code := 500, detail := "Database error on get one: 404: Promotion not found" } :=
  ⟨rfl, rfl, rfl, rfl⟩

/-- Claim C6: delete is a soft delete (the base row is kept, only
`isDeleted` flips), subsequent list/get calls exclude the entity — but the
claim's "second delete returns NotFound (404)" fails: the 404 raised inside
the `try` block is re-wrapped into a 500 `"Database error on delete: 404:
..."` by the `except Exception` block, in both routers.  This theorem
evaluates the embedded handlers on a live row with id 1. -/
theorem c6_soft_delete_second_delete_wrapped_500 :
    (delete_discount "admin" twoRowDiscountDB 1).1.discounts
      = [{ storedDiscountRow with isDeleted := true }, deletedDiscountRow]
    ∧ (delete_discount "admin" twoRowDiscountDB 1).2
      = Except.ok "Discount deleted successfully."
    ∧ (get_discount "admin" 50 (delete_discount "admin" twoRowDiscountDB 1).1 1).2
      = Except.error
          { code := 500, detail := "Database error on get one: 404: Discount not found" }
    ∧ (get_all_discounts "admin" 50 (delete_discount "admin" twoRowDiscountDB 1).1).2
      = Except.ok []
    ∧ (delete_discount "admin" (delete_discount "admin" twoRowDiscountDB 1).1 1).2
      = Except.error
          { code := 500, detail := "Database error on delete: 404: Discount not found" }
    ∧ (delete_promotion "admin" oneRowPromotionDB 1).1.promotions
      = [{ storedPromotionRow with isDeleted := true }]
    ∧ (delete_promotion "admin" (delete_promotion "admin" oneRowPromotionDB 1).1 1).2
      = Except.error
          { code := 500, detail := "Database error on delete: 404: Promotion not found" } :=
  ⟨rfl, rfl, rfl, rfl, rfl, rfl, rfl⟩

/-- `admin` passes the mutation allow-list. -/
lemma validate_admin_ok : validate_token_and_roles "admin" ["admin"] = Except.ok () := by
  simp [validate_token_and_roles]

/-- A successful promotion validation only rewrites `applicationType` (and
only for `bogo`); every other field, in particular the name and the two
selection lists, is passed through unchanged. -/
lemma promo_validation_ok_fields (p q : PromotionPayload)
    (h : promotion_payload_validation p = Except.ok q) :
    q.promotionName = p.promotionName
    ∧ q.selectedProducts = p.selectedProducts
    ∧ q.selectedCategories = p.selectedCategories
    ∧ (p.promotionType ≠ "bogo" → q = p)
    ∧ (p.promotionType = "bogo" →
        q = { p with applicationType := "specific_products" }) := by
  simp only [promotion_payload_validation] at h
  split at h
  · next hb =>
    split at h
    · exact Except.noConfusion h
    · split at h
      · exact Except.noConfusion h
      · split at h
        · exact Except.noConfusion h
        · injection h with h
          subst h
          exact ⟨rfl, rfl, rfl, fun hc => absurd hb hc, fun _ => rfl⟩
  · next hb =>
    split at h
    · exact Except.noConfusion h
    · split at h
      · exact Except.noConfusion h
      · split at h
        · exact Except.noConfusion h
        · injection h with h
          subst h
          exact ⟨rfl, rfl, rfl, fun _ => rfl, fun hc => absurd hc hb⟩

/-- `discount_insert_assocs` never touches the base table. -/
lemma discount_insert_assocs_discounts (db : DiscountDB) (i : Nat) (p : DiscountPayload) :
    (discount_insert_assocs db i p).discounts = db.discounts := by
  by_cases h1 : p.applicationType = "specific_products"
  · simp [discount_insert_assocs, h1]
  · by_cases h2 : p.applicationType = "specific_categories" <;>
      simp [discount_insert_assocs, h1, h2]

/-- A successful discount create stores a row carrying the payload's name. -/
lemma create_discount_tx_ok_any_name (db : DiscountDB) (p : DiscountPayload)
    (db2 : DiscountDB) (nid : Nat)
    (h : create_discount_tx db p = Except.ok (db2, nid)) :
    db2.discounts.any (fun r => r.name == p.discountName) = true := by
  unfold create_discount_tx at h
  split at h
  · exact Except.noConfusion h
  · injection h with h
    have h2 := congrArg Prod.fst h
    simp only at h2
    rw [← h2, discount_insert_assocs_discounts]
    simp [List.any_append]

/-- A successful promotion create stores a row carrying the payload's name. -/
lemma create_promotion_tx_ok_any_name (db : PromotionDB) (p : PromotionPayload)
    (db2 : PromotionDB) (nid : Nat)
    (h : create_promotion_tx db p = Except.ok (db2, nid)) :
    db2.promotions.any (fun r => r.name == p.promotionName) = true := by
  unfold create_promotion_tx at h
  split at h
  · exact Except.noConfusion h
  · injection h with h
    have h2 := congrArg Prod.fst h
    simp only at h2
    rw [← h2]
    simp [List.any_append]

/-- Creating a discount whose name is already stored answers 409 and leaves
the store unchanged (the transaction rolls back). -/
lemma create_discount_dup (db : DiscountDB) (p : DiscountPayload)
    (hdup : db.discounts.any (fun r => r.name == p.discountName) = true) :
    create_discount "admin" db p
      = (db,
         Except.error
           { code := 409,
             detail := "A discount with the name \x27" ++ p.discountName
               ++ "\x27 already exists." }) := by
  unfold create_discount
  rw [validate_admin_ok]
  unfold create_discount_tx
  simp only [hdup, if_true]
  simp [sqlCatch, exnStr, strContainsUnique_uniqueMsg]

/-- Creating a promotion whose name is already stored (with a payload that
passes validation) answers 409 and leaves the store unchanged. -/
lemma create_promotion_dup (db : PromotionDB) (p pv : PromotionPayload)
    (hv : promotion_payload_validation p = Except.ok pv)
    (hdup : db.promotions.any (fun r => r.name == pv.promotionName) = true) :
    create_promotion "admin" db p
      = (db,
         Except.error
           { code := 409,
             detail := "A promotion with the name \x27" ++ pv.promotionName
               ++ "\x27 already exists." }) := by
  unfold create_promotion
  rw [validate_admin_ok, hv]
  unfold create_promotion_tx
  simp only [hdup, if_true]
  simp [sqlCatch, exnStr, strContainsUnique_uniqueMsg]

/-- Claim C4: when two create requests carry the same name, the second
fails with Conflict (409) and leaves the store exactly as it was after the
first create — no row of the second request is observable in the base table
or in either association table.  Stated for both routers; the promotion
payload is assumed to pass the handler's pre-storage validation (otherwise
it fails 400 before any storage access, see C3). -/
theorem c4_duplicate_name_conflict_rollback
    (db db1 : DiscountDB) (p1 p2 : DiscountPayload)
    (hname : p2.discountName = p1.discountName)
    (out : DiscountDetailOut)
    (h1 : create_discount "admin" db p1 = (db1, Except.ok out))
    (pdb pdb1 : PromotionDB) (q1 q2 q2v : PromotionPayload)
    (hqname : q2.promotionName = q1.promotionName)
    (pout : PromotionDetailOut)
    (hq1 : create_promotion "admin" pdb q1 = (pdb1, Except.ok pout))
    (hq2v : promotion_payload_validation q2 = Except.ok q2v) :
    isErrCode (create_discount "admin" db1 p2).2 409
    ∧ (create_discount "admin" db1 p2).1 = db1
    ∧ isErrCode (create_promotion "admin" pdb1 q2).2 409
    ∧ (create_promotion "admin" pdb1 q2).1 = pdb1 := by
  simp only [create_discount, validate_admin_ok] at h1
  simp only [create_promotion, validate_admin_ok] at hq1
  have hd : db1.discounts.any (fun r => r.name == p2.discountName) = true := by
    rw [hname]
    cases hx : create_discount_tx db p1 with
    | error e =>
      rw [hx] at h1
      simp at h1
    | ok z =>
      obtain ⟨db2, nid⟩ := z
      rw [hx] at h1
      have h2 := congrArg Prod.fst h1
      simp only at h2
      rw [← h2]
      exact create_discount_tx_ok_any_name db p1 db2 nid hx
  obtain ⟨q1v, hv1⟩ : ∃ q1v, promotion_payload_validation q1 = Except.ok q1v := by
    cases hv : promotion_payload_validation q1 with
    | error e =>
      rw [hv] at hq1
      simp at hq1
    | ok q1v => exact ⟨q1v, rfl⟩
  rw [hv1] at hq1
  simp only [] at hq1
  have hp : pdb1.promotions.any (fun r => r.name == q2v.promotionName) = true := by
    have hnm : q2v.promotionName = q1v.promotionName := by
      rw [(promo_validation_ok_fields q2 q2v hq2v).1, hqname,
        ← (promo_validation_ok_fields q1 q1v hv1).1]
    rw [hnm]
    cases hx : create_promotion_tx pdb q1v with
    | error e =>
      rw [hx] at hq1
      simp at hq1
    | ok z =>
      obtain ⟨pdb2, nid⟩ := z
      rw [hx] at hq1
      have h2 := congrArg Prod.fst hq1
      simp only at h2
      rw [← h2]
      exact create_promotion_tx_ok_any_name pdb q1v pdb2 nid hx
  have e1 := create_discount_dup db1 p2 hd
  have e2 := create_promotion_dup pdb1 q2 q2v hq2v hp
  refine ⟨?_, ?_, ?_, ?_⟩
  · rw [isErrCode, e1]
    exact ⟨_, rfl, rfl⟩
  · rw [e1]
  · rw [isErrCode, e2]
    exact ⟨_, rfl, rfl⟩
  · rw [e2]

/-- Witness for C4: two `SALE10` discounts and two `SUMMER` promotions. -/
theorem c4_duplicate_name_conflict_rollback_witness :
    isErrCode (create_discount "admin"
      (create_discount "admin" emptyDiscountDB sampleDiscountPayload).1
      sampleDiscountPayload).2 409
    ∧ (create_discount "admin"
        (create_discount "admin" emptyDiscountDB sampleDiscountPayload).1
        sampleDiscountPayload).1
      = (create_discount "admin" emptyDiscountDB sampleDiscountPayload).1
    ∧ isErrCode (create_promotion "admin"
        (create_promotion "admin" emptyPromotionDB samplePromotionPayload).1
        samplePromotionPayload).2 409
    ∧ (create_promotion "admin"
        (create_promotion "admin" emptyPromotionDB samplePromotionPayload).1
        samplePromotionPayload).1
      = (create_promotion "admin" emptyPromotionDB samplePromotionPayload).1 :=
  c4_duplicate_name_conflict_rollback
    emptyDiscountDB (create_discount "admin" emptyDiscountDB sampleDiscountPayload).1
    sampleDiscountPayload sampleDiscountPayload rfl
    { id := 1, data := sampleDiscountPayload } rfl
    emptyPromotionDB (create_promotion "admin" emptyPromotionDB samplePromotionPayload).1
    samplePromotionPayload samplePromotionPayload samplePromotionPayload rfl
    { id := 1, data := samplePromotionPayload } rfl rfl

/-- Every error the promotion validation block produces carries status 400. -/
lemma promo_validation_error_code (p : PromotionPayload) (e : HTTPErr)
    (h : promotion_payload_validation p = Except.error e) : e.code = 400 := by
  simp only [promotion_payload_validation] at h
  split at h
  · split at h
    · injection h with h
      rw [← h]
    · split at h
      · injection h with h
        rw [← h]
      · split at h
        · injection h with h
          rw [← h]
        · exact Except.noConfusion h
  · split at h
    · injection h with h
      rw [← h]
    · split at h
      · injection h with h
        rw [← h]
      · split at h
        · injection h with h
          rw [← h]
        · exact Except.noConfusion h

/-- For a `bogo` payload, validation fails exactly when the selected-product
count is outside 1..2 or either bogo discount field is missing. -/
lemma promo_validation_fails_iff_bogo (p : PromotionPayload)
    (hb : p.promotionType = "bogo") :
    (∃ e, promotion_payload_validation p = Except.error e) ↔
    ¬(1 ≤ p.selectedProducts.length ∧ p.selectedProducts.length ≤ 2 ∧
      p.bogoDiscountType ≠ none ∧ p.bogoDiscountValue ≠ none) := by
  by_cases h1 : p.selectedProducts = []
  · apply iff_of_true
    · refine ⟨{ code := 400, detail := "At least one product must be selected for BOGO" }, ?_⟩
      simp [promotion_payload_validation, hb, h1]
    · intro hc
      rcases hc with ⟨hlen, -⟩
      rw [h1] at hlen
      exact absurd hlen (by simp)
  · by_cases h2 : 2 < p.selectedProducts.length
    · apply iff_of_true
      · refine ⟨{ code := 400, detail := "BOGO promotions can have a maximum of 2 products" }, ?_⟩
        simp [promotion_payload_validation, hb, h1, h2]
      · intro hc
        rcases hc with ⟨-, hle, -⟩
        omega
    · by_cases h3 : p.bogoDiscountType = none ∨ p.bogoDiscountValue = none
      · apply iff_of_true
        · refine ⟨{ code := 400, detail := "BOGO discount type and value are required" }, ?_⟩
          rcases h3 with h3 | h3 <;>
            simp [promotion_payload_validation, hb, h1, h2, h3]
        · intro hc
          rcases hc with ⟨-, -, ht, hv⟩
          rcases h3 with h3 | h3
          · exact ht h3
          · exact hv h3
      · apply iff_of_false
        · intro hc
          rcases hc with ⟨e, he⟩
          simp [promotion_payload_validation, hb, h1, h2, h3] at he
        · intro hc
          push_neg at h3
          refine hc ⟨?_, by omega, h3.1, h3.2⟩
          have := List.length_pos.mpr h1
          omega

/-- For a non-`bogo` payload, validation fails exactly when `promotionValue`
is missing or the selection list matching `applicationType` is empty (the
list check does not apply to `all_products`). -/
lemma promo_validation_fails_iff_nonbogo (p : PromotionPayload)
    (hb : p.promotionType ≠ "bogo") :
    (∃ e, promotion_payload_validation p = Except.error e) ↔
    ¬(p.promotionValue ≠ none ∧
      (p.applicationType = "specific_categories" → p.selectedCategories ≠ []) ∧
      (p.applicationType = "specific_products" → p.selectedProducts ≠ [])) := by
  have hfail : (∃ e, promotion_payload_validation p = Except.error e) ↔
      (p.promotionValue = none
        ∨ (p.applicationType = "specific_categories" ∧ p.selectedCategories = [])
        ∨ (p.applicationType = "specific_products" ∧ p.selectedProducts = [])) := by
    by_cases hv : p.promotionValue = none
    · refine iff_of_true ⟨{ code := 400, detail := "Promotion value is required" }, ?_⟩ (Or.inl hv)
      simp [promotion_payload_validation, hb, hv]
    · by_cases hc : p.applicationType = "specific_categories" ∧ p.selectedCategories = []
      · refine iff_of_true
          ⟨{ code := 400, detail := "At least one category must be selected" }, ?_⟩
          (Or.inr (Or.inl hc))
        simp [promotion_payload_validation, hb, hv, hc]
      · by_cases hp : p.applicationType = "specific_products" ∧ p.selectedProducts = []
        · refine iff_of_true
            ⟨{ code := 400, detail := "At least one product must be selected" }, ?_⟩
            (Or.inr (Or.inr hp))
          simp [promotion_payload_validation, hb, hv, hc, hp]
        · apply iff_of_false
          · intro hx
            rcases hx with ⟨e, he⟩
            simp [promotion_payload_validation, hb, hv, hc, hp] at he
          · rintro (h | h | h)
            · exact hv h
            · exact hc h
            · exact hp h
  rw [hfail]
  constructor
  · rintro (h | h | h) ⟨ha, hbv, hcv⟩
    · exact ha h
    · exact hbv h.1 h.2
    · exact hcv h.1 h.2
  · intro h
    by_cases hv : p.promotionValue = none
    · exact Or.inl hv
    · by_cases hc : p.applicationType = "specific_categories" ∧ p.selectedCategories = []
      · exact Or.inr (Or.inl hc)
      · by_cases hp : p.applicationType = "specific_products" ∧ p.selectedProducts = []
        · exact Or.inr (Or.inr hp)
        · exfalso
          apply h
          refine ⟨hv, ?_, ?_⟩
          · intro hca hce
            exact hc ⟨hca, hce⟩
          · intro hpa hpe
            exact hp ⟨hpa, hpe⟩

/-- A `create_promotion` call (as `admin`) answers 400 exactly when the
validation block rejects the payload, and a rejected payload never touches
the store. -/
lemma create_promotion_400 (db : PromotionDB) (p : PromotionPayload) :
    (isErrCode (create_promotion "admin" db p).2 400 ↔
      (∃ e, promotion_payload_validation p = Except.error e))
    ∧ ((∃ e, promotion_payload_validation p = Except.error e) →
      (create_promotion "admin" db p).1 = db) := by
  cases hv : promotion_payload_validation p with
  | error e =>
    constructor
    · apply iff_of_true
      · exact ⟨e, by simp [create_promotion, validate_admin_ok, hv],
          promo_validation_error_code p e hv⟩
      · exact ⟨e, rfl⟩
    · intro _
      simp [create_promotion, validate_admin_ok, hv]
  | ok pv =>
    constructor
    · apply iff_of_false
      · intro hx
        rcases hx with ⟨e2, he2, hc2⟩
        simp only [create_promotion, validate_admin_ok, hv] at he2
        revert he2
        cases hx : create_promotion_tx db pv with
        | error e3 =>
          intro he2
          simp only [] at he2
          injection he2 with he2
          rw [← he2] at hc2
          exact sqlCatch_code_ne _ _ _ _ (by omega) (by omega) hc2
        | ok z =>
          intro he2
          obtain ⟨db2, nid⟩ := z
          simp only [] at he2
          exact Except.noConfusion he2
      · rintro ⟨e, he⟩
        exact Except.noConfusion he
    · rintro ⟨e, he⟩
      exact Except.noConfusion he

/-- An `update_promotion` call (as `admin`) answers 400 exactly when the
validation block rejects the payload, and a rejected payload never touches
the store. -/
lemma update_promotion_400 (db : PromotionDB) (i : Nat) (p : PromotionPayload) :
    (isErrCode (update_promotion "admin" db i p).2 400 ↔
      (∃ e, promotion_payload_validation p = Except.error e))
    ∧ ((∃ e, promotion_payload_validation p = Except.error e) →
      (update_promotion "admin" db i p).1 = db) := by
  cases hv : promotion_payload_validation p with
  | error e =>
    constructor
    · apply iff_of_true
      · exact ⟨e, by simp [update_promotion, validate_admin_ok, hv],
          promo_validation_error_code p e hv⟩
      · exact ⟨e, rfl⟩
    · intro _
      simp [update_promotion, validate_admin_ok, hv]
  | ok pv =>
    constructor
    · apply iff_of_false
      · intro hx
        rcases hx with ⟨e2, he2, hc2⟩
        simp only [update_promotion, validate_admin_ok, hv] at he2
        revert he2
        cases hx : update_promotion_tx db i pv with
        | error e3 =>
          intro he2
          simp only [] at he2
          injection he2 with he2
          rw [← he2] at hc2
          exact sqlCatch_code_ne _ _ _ _ (by omega) (by omega) hc2
        | ok db2 =>
          intro he2
          simp only [] at he2
          exact Except.noConfusion he2
      · rintro ⟨e, he⟩
        exact Except.noConfusion he
    · rintro ⟨e, he⟩
      exact Except.noConfusion he

/-- Claim C3: the promotion create/update validation gate.  For a `bogo`
payload the request fails with 400 — before any storage access — unless the
selected-product count is within 1..2 and both bogo discount fields are
present, and a successful request stores `applicationType` forced to
`specific_products`.  For `percentage`/`fixed` payloads the request fails
with 400 unless `promotionValue` is present and the selection list matching
`applicationType` is non-empty, the list check not applying to
`all_products`.  A rejected payload leaves the store untouched. -/
theorem c3_promotion_validation_gate (db : PromotionDB) (i : Nat)
    (p : PromotionPayload) :
    (p.promotionType = "bogo" →
      ((isErrCode (create_promotion "admin" db p).2 400 ↔
          ¬(1 ≤ p.selectedProducts.length ∧ p.selectedProducts.length ≤ 2 ∧
            p.bogoDiscountType ≠ none ∧ p.bogoDiscountValue ≠ none))
        ∧ (isErrCode (update_promotion "admin" db i p).2 400 ↔
          ¬(1 ≤ p.selectedProducts.length ∧ p.selectedProducts.length ≤ 2 ∧
            p.bogoDiscountType ≠ none ∧ p.bogoDiscountValue ≠ none))
        ∧ (∀ db2 out, create_promotion "admin" db p = (db2, Except.ok out) →
            out.data.applicationType = "specific_products")
        ∧ (∀ db2 out, update_promotion "admin" db i p = (db2, Except.ok out) →
            out.data.applicationType = "specific_products")))
    ∧ ((p.promotionType = "percentage" ∨ p.promotionType = "fixed") →
      ((isErrCode (create_promotion "admin" db p).2 400 ↔
          ¬(p.promotionValue ≠ none ∧
            (p.applicationType = "specific_categories" → p.selectedCategories ≠ []) ∧
            (p.applicationType = "specific_products" → p.selectedProducts ≠ [])))
        ∧ (isErrCode (update_promotion "admin" db i p).2 400 ↔
          ¬(p.promotionValue ≠ none ∧
            (p.applicationType = "specific_categories" → p.selectedCategories ≠ []) ∧
            (p.applicationType = "specific_products" → p.selectedProducts ≠ [])))))
    ∧ (isErrCode (create_promotion "admin" db p).2 400 →
        (create_promotion "admin" db p).1 = db)
    ∧ (isErrCode (update_promotion "admin" db i p).2 400 →
        (update_promotion "admin" db i p).1 = db) := by
  have hc := create_promotion_400 db p
  have hu := update_promotion_400 db i p
  refine ⟨?_, ?_, ?_, ?_⟩
  · intro hb
    refine ⟨?_, ?_, ?_, ?_⟩
    · rw [hc.1]
      exact promo_validation_fails_iff_bogo p hb
    · rw [hu.1]
      exact promo_validation_fails_iff_bogo p hb
    · intro db2 out hok
      simp only [create_promotion, validate_admin_ok] at hok
      revert hok
      cases hv : promotion_payload_validation p with
      | error e =>
        intro hok
        simp only [] at hok
        exact absurd (congrArg Prod.snd hok) (by simp)
      | ok pv =>
        intro hok
        simp only [] at hok
        revert hok
        cases hx : create_promotion_tx db pv with
        | error e3 =>
          intro hok
          simp only [] at hok
          exact absurd (congrArg Prod.snd hok) (by simp)
        | ok z =>
          obtain ⟨db3, nid⟩ := z
          intro hok
          simp only [] at hok
          have h2 := congrArg Prod.snd hok
          simp only at h2
          injection h2 with h2
          rw [← h2]
          have := (promo_validation_ok_fields p pv hv).2.2.2.2 hb
          rw [this]
    · intro db2 out hok
      simp only [update_promotion, validate_admin_ok] at hok
      revert hok
      cases hv : promotion_payload_validation p with
      | error e =>
        intro hok
        simp only [] at hok
        exact absurd (congrArg Prod.snd hok) (by simp)
      | ok pv =>
        intro hok
        simp only [] at hok
        revert hok
        cases hx : update_promotion_tx db i pv with
        | error e3 =>
          intro hok
          simp only [] at hok
          exact absurd (congrArg Prod.snd hok) (by simp)
        | ok db3 =>
          intro hok
          simp only [] at hok
          have h2 := congrArg Prod.snd hok
          simp only at h2
          injection h2 with h2
          rw [← h2]
          have := (promo_validation_ok_fields p pv hv).2.2.2.2 hb
          rw [this]
  · intro hnb
    have hb : p.promotionType ≠ "bogo" := by
      rcases hnb with h | h <;> rw [h] <;> decide
    constructor
    · rw [hc.1]
      exact promo_validation_fails_iff_nonbogo p hb
    · rw [hu.1]
      exact promo_validation_fails_iff_nonbogo p hb
  · intro h400
    exact hc.2 (hc.1.mp h400)
  · intro h400
    exact hu.2 (hu.1.mp h400)

/-- A BOGO promotion payload with three selected products (invalid). -/
def threeBogoPayload : PromotionPayload :=
  { promotionName := "BOGO3", description := none,
    applicationType := "all_products",
    selectedProducts := ["Latte", "Mocha", "Espresso"], selectedCategories := [],
    promotionType := "bogo", promotionValue := none,
    buyQuantity := some 1, getQuantity := some 1,
    bogoDiscountType := some "percentage", bogoDiscountValue := some 50,
    bogoPromotionImage := none, minQuantity := none,
    validFrom := 10, validTo := 400, status := "active" }

/-- Witness for C3: a BOGO create with three selected products fails with
400 and leaves the store untouched. -/
theorem c3_promotion_validation_gate_witness :
    isErrCode (create_promotion "admin" emptyPromotionDB threeBogoPayload).2 400
    ∧ (create_promotion "admin" emptyPromotionDB threeBogoPayload).1 = emptyPromotionDB :=
  have h := c3_promotion_validation_gate emptyPromotionDB 1 threeBogoPayload
  have h400 := (h.1 (by decide)).1.mpr (by decide)
  ⟨h400, h.2.2.1 h400⟩

/-- A successful discount update leaves, for the updated id, exactly the
association rows computed from the new payload — the old rows are gone. -/
lemma update_discount_tx_ok_assocs (db : DiscountDB) (i : Nat)
    (p : DiscountPayload) (db2 : DiscountDB)
    (h : update_discount_tx db i p = Except.ok db2) :
    rowsFor db2.applicable_products i
      = (if p.applicationType = "specific_products" then p.selectedProducts else [])
    ∧ rowsFor db2.applicable_categories i
      = (if p.applicationType = "specific_categories" then p.selectedCategories else []) := by
  unfold update_discount_tx at h
  split at h
  · exact Except.noConfusion h
  · split at h
    · exact Except.noConfusion h
    · injection h with h
      rw [← h]
      constructor
      · by_cases hp : p.applicationType = "specific_products"
        · simp [discount_insert_assocs, hp, rowsFor_append, rowsFor_filter_ne,
            rowsFor_map_self]
        · by_cases hc : p.applicationType = "specific_categories" <;>
            simp [discount_insert_assocs, hp, hc, rowsFor_filter_ne]
      · by_cases hp : p.applicationType = "specific_products"
        · simp [discount_insert_assocs, hp, rowsFor_filter_ne]
        · by_cases hc : p.applicationType = "specific_categories"
          · simp [discount_insert_assocs, hp, hc, rowsFor_append,
              rowsFor_filter_ne, rowsFor_map_self]
          · simp [discount_insert_assocs, hp, hc, rowsFor_filter_ne]

/-- A successful promotion update leaves, for the updated id, exactly the
rows of both selection lists. -/
lemma update_promotion_tx_ok_assocs (db : PromotionDB) (i : Nat)
    (q : PromotionPayload) (db2 : PromotionDB)
    (h : update_promotion_tx db i q = Except.ok db2) :
    rowsFor db2.applicable_products i = q.selectedProducts
    ∧ rowsFor db2.applicable_categories i = q.selectedCategories := by
  unfold update_promotion_tx at h
  split at h
  · exact Except.noConfusion h
  · split at h
    · exact Except.noConfusion h
    · injection h with h
      rw [← h]
      constructor
      · simp [rowsFor_append, rowsFor_filter_ne, rowsFor_map_self]
      · simp [rowsFor_append, rowsFor_filter_ne, rowsFor_map_self]

/-- Claim C5: a successful update fully replaces the association rows of the
updated entity with exactly the rows computed from the new payload's
selection lists, never the union of old and new rows: after a discount
update the id's product rows are exactly the new `selectedProducts` (when
`applicationType` is `specific_products`; none otherwise) and the category
rows are exactly the new `selectedCategories` (when `specific_categories`);
after a promotion update the id's rows are exactly the new
`selectedProducts` and `selectedCategories`. -/
theorem c5_update_replaces_associations
    (db db2 : DiscountDB) (i : Nat) (p : DiscountPayload) (out : DiscountDetailOut)
    (h : update_discount "admin" db i p = (db2, Except.ok out))
    (pdb pdb2 : PromotionDB) (j : Nat) (q : PromotionPayload) (pout : PromotionDetailOut)
    (hq : update_promotion "admin" pdb j q = (pdb2, Except.ok pout)) :
    rowsFor db2.applicable_products i
      = (if p.applicationType = "specific_products" then p.selectedProducts else [])
    ∧ rowsFor db2.applicable_categories i
      = (if p.applicationType = "specific_categories" then p.selectedCategories else [])
    ∧ rowsFor pdb2.applicable_products j = q.selectedProducts
    ∧ rowsFor pdb2.applicable_categories j = q.selectedCategories := by
  simp only [update_discount, validate_admin_ok] at h
  simp only [update_promotion, validate_admin_ok] at hq
  have hd : rowsFor db2.applicable_products i
      = (if p.applicationType = "specific_products" then p.selectedProducts else [])
      ∧ rowsFor db2.applicable_categories i
      = (if p.applicationType = "specific_categories" then p.selectedCategories else []) := by
    revert h
    cases hx : update_discount_tx db i p with
    | error e =>
      intro h
      simp only [] at h
      exact absurd (congrArg Prod.snd h) (by simp)
    | ok db3 =>
      intro h
      simp only [] at h
      have h2 := congrArg Prod.fst h
      simp only at h2
      rw [← h2]
      exact update_discount_tx_ok_assocs db i p db3 hx
  obtain ⟨qv, hv⟩ : ∃ qv, promotion_payload_validation q = Except.ok qv := by
    cases hv : promotion_payload_validation q with
    | error e =>
      rw [hv] at hq
      simp at hq
    | ok qv => exact ⟨qv, rfl⟩
  rw [hv] at hq
  simp only [] at hq
  have hlists := promo_validation_ok_fields q qv hv
  have hp : rowsFor pdb2.applicable_products j = q.selectedProducts
      ∧ rowsFor pdb2.applicable_categories j = q.selectedCategories := by
    revert hq
    cases hx : update_promotion_tx pdb j qv with
    | error e =>
      intro hq
      simp only [] at hq
      exact absurd (congrArg Prod.snd hq) (by simp)
    | ok pdb3 =>
      intro hq
      simp only [] at hq
      have h2 := congrArg Prod.fst hq
      simp only at h2
      rw [← h2]
      have := update_promotion_tx_ok_assocs pdb j qv pdb3 hx
      rw [hlists.2.1, hlists.2.2.1] at this
      exact this
  exact ⟨hd.1, hd.2, hp.1, hp.2⟩

/-- The store after creating the three-product `TRIO` discount. -/
def trioDiscountDB : DiscountDB :=
  (create_discount "admin" emptyDiscountDB threeProductsPayload).1

/-- The store after creating the `SUMMER` promotion. -/
def summerPromotionDB : PromotionDB :=
  (create_promotion "admin" emptyPromotionDB samplePromotionPayload).1

/-- Witness for C5: updating the `TRIO` discount from three selected
products down to one leaves exactly the one new association row. -/
theorem c5_update_replaces_associations_witness :
    rowsFor (update_discount "admin" trioDiscountDB 1 oneProductPayload).1.applicable_products 1
      = (if oneProductPayload.applicationType = "specific_products" then
          oneProductPayload.selectedProducts else [])
    ∧ rowsFor (update_discount "admin" trioDiscountDB 1 oneProductPayload).1.applicable_categories 1
      = (if oneProductPayload.applicationType = "specific_categories" then
          oneProductPayload.selectedCategories else [])
    ∧ rowsFor (update_promotion "admin" summerPromotionDB 1 samplePromotionPayload).1.applicable_products 1
      = samplePromotionPayload.selectedProducts
    ∧ rowsFor (update_promotion "admin" summerPromotionDB 1 samplePromotionPayload).1.applicable_categories 1
      = samplePromotionPayload.selectedCategories :=
  c5_update_replaces_associations
    trioDiscountDB (update_discount "admin" trioDiscountDB 1 oneProductPayload).1
    1 oneProductPayload { id := 1, data := oneProductPayload } rfl
    summerPromotionDB (update_promotion "admin" summerPromotionDB 1 samplePromotionPayload).1
    1 samplePromotionPayload { id := 1, data := samplePromotionPayload } rfl

/-- A successful discount create inserts association rows for the new id
from the selection list matching `applicationType` only (none for
`all_products`), provided no stale association row already carries the
fresh id (guaranteed by the `IDENTITY` column in the real store). -/
lemma create_discount_tx_ok_assocs (db : DiscountDB) (p : DiscountPayload)
    (db2 : DiscountDB) (nid : Nat)
    (h : create_discount_tx db p = Except.ok (db2, nid))
    (hfp : rowsFor db.applicable_products db.nextId = [])
    (hfc : rowsFor db.applicable_categories db.nextId = []) :
    rowsFor db2.applicable_products nid
      = (if p.applicationType = "specific_products" then p.selectedProducts else [])
    ∧ rowsFor db2.applicable_categories nid
      = (if p.applicationType = "specific_categories" then p.selectedCategories else []) := by
  unfold create_discount_tx at h
  split at h
  · exact Except.noConfusion h
  · injection h with h
    have hid := congrArg Prod.snd h
    simp only at hid
    have hdb := congrArg Prod.fst h
    simp only at hdb
    rw [← hdb, ← hid]
    constructor
    · by_cases hp : p.applicationType = "specific_products"
      · simp [discount_insert_assocs, hp, rowsFor_append, hfp, rowsFor_map_self]
      · by_cases hc : p.applicationType = "specific_categories" <;>
          simp [discount_insert_assocs, hp, hc, hfp]
    · by_cases hp : p.applicationType = "specific_products"
      · simp [discount_insert_assocs, hp, hfc]
      · by_cases hc : p.applicationType = "specific_categories"
        · simp [discount_insert_assocs, hp, hc, rowsFor_append, hfc,
            rowsFor_map_self]
        · simp [discount_insert_assocs, hp, hc, hfc]

/-- A successful promotion create inserts association rows for the new id
from both selection lists, regardless of `applicationType`, provided no
stale association row already carries the fresh id. -/
lemma create_promotion_tx_ok_assocs (db : PromotionDB) (q : PromotionPayload)
    (db2 : PromotionDB) (nid : Nat)
    (h : create_promotion_tx db q = Except.ok (db2, nid))
    (hfp : rowsFor db.applicable_products db.nextId = [])
    (hfc : rowsFor db.applicable_categories db.nextId = []) :
    rowsFor db2.applicable_products nid = q.selectedProducts
    ∧ rowsFor db2.applicable_categories nid = q.selectedCategories := by
  unfold create_promotion_tx at h
  split at h
  · exact Except.noConfusion h
  · injection h with h
    have hid := congrArg Prod.snd h
    simp only at hid
    have hdb := congrArg Prod.fst h
    simp only at hdb
    rw [← hdb, ← hid]
    constructor
    · simp [rowsFor_append, hfp, rowsFor_map_self]
    · simp [rowsFor_append, hfc, rowsFor_map_self]

/-- Claim C9: a successful promotion create/update stores association rows
for every entry of both `selectedProducts` and `selectedCategories`
regardless of `applicationType` (an `all_products` promotion still gets
rows for any provided selections), whereas a discount create stores only
the list matching `applicationType` and stores no association rows for
`all_products`.  (For the update analogue of both routers see C5.)  The
freshness hypotheses state that no stale association row already carries
the identity counter's next id, which the real store's `IDENTITY` column
guarantees. -/
theorem c9_create_association_asymmetry
    (pdb pdb2 : PromotionDB) (q : PromotionPayload) (pout : PromotionDetailOut)
    (hq : create_promotion "admin" pdb q = (pdb2, Except.ok pout))
    (hfp : rowsFor pdb.applicable_products pdb.nextId = [])
    (hfc : rowsFor pdb.applicable_categories pdb.nextId = [])
    (db db2 : DiscountDB) (p : DiscountPayload) (out : DiscountDetailOut)
    (h : create_discount "admin" db p = (db2, Except.ok out))
    (hgp : rowsFor db.applicable_products db.nextId = [])
    (hgc : rowsFor db.applicable_categories db.nextId = []) :
    rowsFor pdb2.applicable_products pout.id = q.selectedProducts
    ∧ rowsFor pdb2.applicable_categories pout.id = q.selectedCategories
    ∧ rowsFor db2.applicable_products out.id
      = (if p.applicationType = "specific_products" then p.selectedProducts else [])
    ∧ rowsFor db2.applicable_categories out.id
      = (if p.applicationType = "specific_categories" then p.selectedCategories else []) := by
  simp only [create_promotion, validate_admin_ok] at hq
  simp only [create_discount, validate_admin_ok] at h
  obtain ⟨qv, hv⟩ : ∃ qv, promotion_payload_validation q = Except.ok qv := by
    cases hv : promotion_payload_validation q with
    | error e =>
      rw [hv] at hq
      simp at hq
    | ok qv => exact ⟨qv, rfl⟩
  rw [hv] at hq
  simp only [] at hq
  have hlists := promo_validation_ok_fields q qv hv
  have hprom : rowsFor pdb2.applicable_products pout.id = q.selectedProducts
      ∧ rowsFor pdb2.applicable_categories pout.id = q.selectedCategories := by
    revert hq
    cases hx : create_promotion_tx pdb qv with
    | error e =>
      intro hq
      simp only [] at hq
      exact absurd (congrArg Prod.snd hq) (by simp)
    | ok z =>
      obtain ⟨pdb3, nid⟩ := z
      intro hq
      simp only [] at hq
      have h1 := congrArg Prod.fst hq
      simp only at h1
      have h2 := congrArg Prod.snd hq
      simp only at h2
      injection h2 with h2
      rw [← h1, ← h2]
      have := create_promotion_tx_ok_assocs pdb qv pdb3 nid hx hfp hfc
      rw [hlists.2.1, hlists.2.2.1] at this
      exact this
  have hdisc : rowsFor db2.applicable_products out.id
      = (if p.applicationType = "specific_products" then p.selectedProducts else [])
      ∧ rowsFor db2.applicable_categories out.id
      = (if p.applicationType = "specific_categories" then p.selectedCategories else []) := by
    revert h
    cases hx : create_discount_tx db p with
    | error e =>
      intro h
      simp only [] at h
      exact absurd (congrArg Prod.snd h) (by simp)
    | ok z =>
      obtain ⟨db3, nid⟩ := z
      intro h
      simp only [] at h
      have h1 := congrArg Prod.fst h
      simp only at h1
      have h2 := congrArg Prod.snd h
      simp only at h2
      injection h2 with h2
      rw [← h1, ← h2]
      exact create_discount_tx_ok_assocs db p db3 nid hx hgp hgc
  exact ⟨hprom.1, hprom.2, hdisc.1, hdisc.2⟩

/-- Witness for C9: the `all_products` `SUMMER` promotion still stores its
selection rows, while the `all_products` `SALE10` discount stores none. -/
theorem c9_create_association_asymmetry_witness :
    rowsFor (create_promotion "admin" emptyPromotionDB samplePromotionPayload).1.applicable_products 1
      = samplePromotionPayload.selectedProducts
    ∧ rowsFor (create_promotion "admin" emptyPromotionDB samplePromotionPayload).1.applicable_categories 1
      = samplePromotionPayload.selectedCategories
    ∧ rowsFor (create_discount "admin" emptyDiscountDB sampleDiscountPayload).1.applicable_products 1
      = (if sampleDiscountPayload.applicationType = "specific_products" then
          sampleDiscountPayload.selectedProducts else [])
    ∧ rowsFor (create_discount "admin" emptyDiscountDB sampleDiscountPayload).1.applicable_categories 1
      = (if sampleDiscountPayload.applicationType = "specific_categories" then
          sampleDiscountPayload.selectedCategories else []) :=
  c9_create_association_asymmetry
    emptyPromotionDB (create_promotion "admin" emptyPromotionDB samplePromotionPayload).1
    samplePromotionPayload { id := 1, data := samplePromotionPayload } rfl rfl rfl
    emptyDiscountDB (create_discount "admin" emptyDiscountDB sampleDiscountPayload).1
    sampleDiscountPayload { id := 1, data := sampleDiscountPayload } rfl rfl rfl

/-- The 403 answer of the authorization helper for a given role. -/
def forbiddenErr (role : String) : HTTPErr :=
  { code := 403,
    detail := "Access denied. Role \x27" ++ role ++ "\x27 is not authorized." }

/-- Authorization succeeds for a role in the allow-list. -/
lemma validate_ok_of_mem (role : String) (allowed : List String)
    (h : role ∈ allowed) :
    validate_token_and_roles role allowed = Except.ok () := by
  simp [validate_token_and_roles, h]

/-- Authorization answers 403 for a role outside the allow-list. -/
lemma validate_err_of_not_mem (role : String) (allowed : List String)
    (h : role ∉ allowed) :
    validate_token_and_roles role allowed
      = Except.error
          { code := 403,
            detail := "Access denied. Role \x27" ++ role ++ "\x27 is not authorized." } := by
  simp [validate_token_and_roles, h]

/-- With an authorized role, `get_all_discounts` sweeps and answers the
shaped list query. -/
lemma get_all_discounts_ok (role : String) (today : Day) (db : DiscountDB)
    (h : role ∈ ["admin", "manager", "cashier"]) :
    get_all_discounts role today db
      = (auto_expire_discounts today db,
         Except.ok ((discount_list_query (auto_expire_discounts today db)).map
           shapeDiscountRow)) := by
  simp [get_all_discounts, validate_ok_of_mem role _ h]

/-- With an authorized role, `get_all_promotions` sweeps and answers the
shaped list query. -/
lemma get_all_promotions_ok (role : String) (today : Day) (db : PromotionDB)
    (h : role ∈ ["admin", "manager", "cashier"]) :
    get_all_promotions role today db
      = (auto_expire_promotions today db,
         Except.ok ((promotion_list_query (auto_expire_promotions today db)).map
           (shapePromotionRow (auto_expire_promotions today db)))) := by
  simp [get_all_promotions, validate_ok_of_mem role _ h]

/-- Any error `get_discount` produces for an authorized role carries
status 500 (the wrapped 404 included). -/
lemma get_discount_err_code (role : String) (today : Day) (db : DiscountDB)
    (i : Nat) (e : HTTPErr) (hm : role ∈ ["admin", "manager", "cashier"])
    (he : (get_discount role today db i).2 = Except.error e) : e.code = 500 := by
  simp only [get_discount, validate_ok_of_mem role _ hm] at he
  split at he
  · simp at he
  · simp only [] at he
    injection he with he
    rw [← he]

/-- Any error `update_discount` produces for `admin` carries status 409 or
500. -/
lemma update_discount_err_code (db : DiscountDB) (i : Nat) (p : DiscountPayload)
    (e : HTTPErr)
    (he : (update_discount "admin" db i p).2 = Except.error e) :
    e.code = 409 ∨ e.code = 500 := by
  simp only [update_discount, validate_admin_ok] at he
  split at he
  · simp at he
  · simp only [] at he
    injection he with he
    rw [← he]
    exact sqlCatch_code _ _ _

/-- Any error `create_discount` produces for `admin` carries status 409 or
500. -/
lemma create_discount_err_code (db : DiscountDB) (p : DiscountPayload)
    (e : HTTPErr)
    (he : (create_discount "admin" db p).2 = Except.error e) :
    e.code = 409 ∨ e.code = 500 := by
  simp only [create_discount, validate_admin_ok] at he
  split at he
  · simp at he
  · simp only [] at he
    injection he with he
    rw [← he]
    exact sqlCatch_code _ _ _

/-- Any error `delete_discount` produces for `admin` carries status 500. -/
lemma delete_discount_err_code (db : DiscountDB) (i : Nat) (e : HTTPErr)
    (he : (delete_discount "admin" db i).2 = Except.error e) : e.code = 500 := by
  simp only [delete_discount, validate_admin_ok] at he
  split at he
  · simp at he
  · simp only [] at he
    injection he with he
    rw [← he]

/-- Claim C8: each discount operation answers Forbidden (403) exactly when
the caller's role is outside that operation's allow-list (list/get allow
`admin`/`manager`/`cashier`, create/update/delete allow only `admin`); in
particular a `cashier` can list discounts but is Forbidden on create, while
an `admin` succeeds at both (create succeeding whenever the name is
fresh). -/
theorem c8_role_allowlists (role : String) (today : Day) (db : DiscountDB)
    (p : DiscountPayload) (i : Nat) :
    (isErrCode (get_all_discounts role today db).2 403
      ↔ role ∉ ["admin", "manager", "cashier"])
    ∧ (isErrCode (get_discount role today db i).2 403
      ↔ role ∉ ["admin", "manager", "cashier"])
    ∧ (isErrCode (create_discount role db p).2 403 ↔ role ∉ ["admin"])
    ∧ (isErrCode (update_discount role db i p).2 403 ↔ role ∉ ["admin"])
    ∧ (isErrCode (delete_discount role db i).2 403 ↔ role ∉ ["admin"])
    ∧ (∃ outs, (get_all_discounts "cashier" today db).2 = Except.ok outs)
    ∧ isErrCode (create_discount "cashier" db p).2 403
    ∧ (∃ outs, (get_all_discounts "admin" today db).2 = Except.ok outs)
    ∧ ((∀ r ∈ db.discounts, r.name ≠ p.discountName) →
        ∃ out, (create_discount "admin" db p).2 = Except.ok out) := by
  refine ⟨?_, ?_, ?_, ?_, ?_, ?_, ?_, ?_, ?_⟩
  · by_cases hm : role ∈ ["admin", "manager", "cashier"]
    · apply iff_of_false
      · rintro ⟨e, he, -⟩
        rw [get_all_discounts_ok role today db hm] at he
        exact Except.noConfusion he
      · exact fun hc => hc hm
    · apply iff_of_true _ hm
      refine ⟨forbiddenErr role, ?_, rfl⟩
      simp [get_all_discounts, validate_err_of_not_mem role _ hm, forbiddenErr]
  · by_cases hm : role ∈ ["admin", "manager", "cashier"]
    · apply iff_of_false
      · rintro ⟨e, he, hc⟩
        have := get_discount_err_code role today db i e hm he
        omega
      · exact fun hc => hc hm
    · apply iff_of_true _ hm
      refine ⟨forbiddenErr role, ?_, rfl⟩
      simp [get_discount, validate_err_of_not_mem role _ hm, forbiddenErr]
  · by_cases hm : role ∈ ["admin"]
    · have hr : role = "admin" := by simpa using hm
      subst hr
      apply iff_of_false
      · rintro ⟨e, he, hc⟩
        rcases create_discount_err_code db p e he with h9 | h9 <;> omega
      · exact fun hc => hc (by simp)
    · apply iff_of_true _ hm
      refine ⟨forbiddenErr role, ?_, rfl⟩
      simp [create_discount, validate_err_of_not_mem role _ hm, forbiddenErr]
  · by_cases hm : role ∈ ["admin"]
    · have hr : role = "admin" := by simpa using hm
      subst hr
      apply iff_of_false
      · rintro ⟨e, he, hc⟩
        rcases update_discount_err_code db i p e he with h9 | h9 <;> omega
      · exact fun hc => hc (by simp)
    · apply iff_of_true _ hm
      refine ⟨forbiddenErr role, ?_, rfl⟩
      simp [update_discount, validate_err_of_not_mem role _ hm, forbiddenErr]
  · by_cases hm : role ∈ ["admin"]
    · have hr : role = "admin" := by simpa using hm
      subst hr
      apply iff_of_false
      · rintro ⟨e, he, hc⟩
        have := delete_discount_err_code db i e he
        omega
      · exact fun hc => hc (by simp)
    · apply iff_of_true _ hm
      refine ⟨forbiddenErr role, ?_, rfl⟩
      simp [delete_discount, validate_err_of_not_mem role _ hm, forbiddenErr]
  · exact ⟨_, congrArg Prod.snd (get_all_discounts_ok "cashier" today db (by decide))⟩
  · refine ⟨forbiddenErr "cashier", ?_, rfl⟩
    simp [create_discount, validate_err_of_not_mem "cashier" ["admin"] (by decide),
      forbiddenErr]
  · exact ⟨_, congrArg Prod.snd (get_all_discounts_ok "admin" today db (by decide))⟩
  · intro hfresh
    have hnone : db.discounts.any (fun r => r.name == p.discountName) = false := by
      rw [List.any_eq_false]
      intro r hr
      simpa using hfresh r hr
    refine ⟨{ id := db.nextId, data := p }, ?_⟩
    simp only [create_discount, validate_admin_ok, create_discount_tx, hnone]
    simp

/-- Witness for C8 at concrete inputs. -/
theorem c8_role_allowlists_witness :
    (isErrCode (get_all_discounts "cashier" 500 twoRowDiscountDB).2 403
      ↔ ("cashier" : String) ∉ ["admin", "manager", "cashier"])
    ∧ (isErrCode (get_discount "cashier" 500 twoRowDiscountDB 1).2 403
      ↔ ("cashier" : String) ∉ ["admin", "manager", "cashier"])
    ∧ (isErrCode (create_discount "cashier" twoRowDiscountDB threeProductsPayload).2 403
      ↔ ("cashier" : String) ∉ ["admin"])
    ∧ (isErrCode (update_discount "cashier" twoRowDiscountDB 1 threeProductsPayload).2 403
      ↔ ("cashier" : String) ∉ ["admin"])
    ∧ (isErrCode (delete_discount "cashier" twoRowDiscountDB 1).2 403
      ↔ ("cashier" : String) ∉ ["admin"])
    ∧ (∃ outs, (get_all_discounts "cashier" 500 twoRowDiscountDB).2 = Except.ok outs)
    ∧ isErrCode (create_discount "cashier" twoRowDiscountDB threeProductsPayload).2 403
    ∧ (∃ outs, (get_all_discounts "admin" 500 twoRowDiscountDB).2 = Except.ok outs)
    ∧ ((∀ r ∈ twoRowDiscountDB.discounts, r.name ≠ threeProductsPayload.discountName) →
        ∃ out, (create_discount "admin" twoRowDiscountDB threeProductsPayload).2
          = Except.ok out) :=
  c8_role_allowlists "cashier" 500 twoRowDiscountDB threeProductsPayload 1

/-- Claim C10: the allow-list of `GET /promotions/active` is exactly
`{"user"}`: every other authenticated role — `admin`, `manager` and
`cashier` included — receives Forbidden (403), and `user` succeeds. -/
theorem c10_active_allowlist_user_only (role : String) (today : Day)
    (db : PromotionDB) :
    (isErrCode (get_active_promotions_public role today db).2 403 ↔ role ≠ "user")
    ∧ isErrCode (get_active_promotions_public "admin" today db).2 403
    ∧ isErrCode (get_active_promotions_public "manager" today db).2 403
    ∧ isErrCode (get_active_promotions_public "cashier" today db).2 403
    ∧ (∃ outs, (get_active_promotions_public "user" today db).2 = Except.ok outs) := by
  have herr : ∀ r : String, r ≠ "user" →
      isErrCode (get_active_promotions_public r today db).2 403 := by
    intro r hr
    refine ⟨forbiddenErr r, ?_, rfl⟩
    simp [get_active_promotions_public,
      validate_err_of_not_mem r ["user"] (by simpa using hr), forbiddenErr]
  refine ⟨?_, herr _ (by decide), herr _ (by decide), herr _ (by decide), ?_⟩
  · by_cases hm : role = "user"
    · subst hm
      apply iff_of_false
      · rintro ⟨e, he, -⟩
        simp only [get_active_promotions_public,
          validate_ok_of_mem "user" ["user"] (by decide)] at he
        exact Except.noConfusion he
      · simp
    · exact iff_of_true (herr role hm) hm
  · cases hres : (get_active_promotions_public "user" today db).2 with
    | error e =>
      exfalso
      simp only [get_active_promotions_public,
        validate_ok_of_mem "user" ["user"] (by decide)] at hres
      exact Except.noConfusion hres
    | ok outs => exact ⟨outs, rfl⟩

/-- Witness for C10 at a concrete role and store. -/
theorem c10_active_allowlist_user_only_witness :
    (isErrCode (get_active_promotions_public "admin" 500 oneRowPromotionDB).2 403
      ↔ ("admin" : String) ≠ "user")
    ∧ isErrCode (get_active_promotions_public "admin" 500 oneRowPromotionDB).2 403
    ∧ isErrCode (get_active_promotions_public "manager" 500 oneRowPromotionDB).2 403
    ∧ isErrCode (get_active_promotions_public "cashier" 500 oneRowPromotionDB).2 403
    ∧ (∃ outs, (get_active_promotions_public "user" 500 oneRowPromotionDB).2
        = Except.ok outs) :=
  c10_active_allowlist_user_only "admin" 500 oneRowPromotionDB

/-- The discount list query's ids are non-increasing (`ORDER BY id DESC`). -/
lemma discount_query_sorted (db : DiscountDB) :
    List.Sorted (fun a b : Nat => b ≤ a)
      ((discount_list_query db).map DiscountSqlRow.id) := by
  unfold discount_list_query
  rw [List.map_map]
  have hs := List.sorted_insertionSort discIdGe
    (db.discounts.filter (fun r => !r.isDeleted))
  rw [List.Sorted, List.pairwise_map]
  exact hs.imp (fun h => h)

/-- The discount list query returns exactly the ids of the non-deleted
rows. -/
lemma discount_query_mem (db : DiscountDB) (n : Nat) :
    n ∈ (discount_list_query db).map DiscountSqlRow.id ↔
    ∃ r ∈ db.discounts, r.isDeleted = false ∧ r.id = n := by
  unfold discount_list_query
  rw [List.map_map]
  have hperm := List.perm_insertionSort discIdGe
    (db.discounts.filter (fun r => !r.isDeleted))
  constructor
  · intro hn
    rcases List.mem_map.mp hn with ⟨r, hr, heq⟩
    rcases List.mem_filter.mp (hperm.mem_iff.mp hr) with ⟨hmem, hdel⟩
    exact ⟨r, hmem, by simpa using hdel, by simpa using heq⟩
  · rintro ⟨r, hmem, hdel, rfl⟩
    apply List.mem_map.mpr
    refine ⟨r, ?_, rfl⟩
    exact hperm.mem_iff.mpr (List.mem_filter.mpr ⟨hmem, by simpa using hdel⟩)

/-- Every row of the discount list query carries the comma-joined distinct
product and category names of its id. -/
lemma discount_query_aggs (db : DiscountDB) (row : DiscountSqlRow)
    (hrow : row ∈ discount_list_query db) :
    row.products = aggJoin "," (rowsFor db.applicable_products row.id)
    ∧ row.categories = aggJoin "," (rowsFor db.applicable_categories row.id) := by
  unfold discount_list_query at hrow
  rcases List.mem_map.mp hrow with ⟨r, hr, rfl⟩
  exact ⟨rfl, rfl⟩

/-- The promotion list query's ids are non-increasing. -/
lemma promotion_query_sorted (db : PromotionDB) :
    List.Sorted (fun a b : Nat => b ≤ a)
      ((promotion_list_query db).map PromotionSqlRow.id) := by
  unfold promotion_list_query
  rw [List.map_map]
  have hs := List.sorted_insertionSort promIdGe
    (db.promotions.filter (fun r => !r.isDeleted))
  rw [List.Sorted, List.pairwise_map]
  exact hs.imp (fun h => h)

/-- The promotion list query returns exactly the ids of the non-deleted
rows. -/
lemma promotion_query_mem (db : PromotionDB) (n : Nat) :
    n ∈ (promotion_list_query db).map PromotionSqlRow.id ↔
    ∃ r ∈ db.promotions, r.isDeleted = false ∧ r.id = n := by
  unfold promotion_list_query
  rw [List.map_map]
  have hperm := List.perm_insertionSort promIdGe
    (db.promotions.filter (fun r => !r.isDeleted))
  constructor
  · intro hn
    rcases List.mem_map.mp hn with ⟨r, hr, heq⟩
    rcases List.mem_filter.mp (hperm.mem_iff.mp hr) with ⟨hmem, hdel⟩
    exact ⟨r, hmem, by simpa using hdel, by simpa using heq⟩
  · rintro ⟨r, hmem, hdel, rfl⟩
    apply List.mem_map.mpr
    refine ⟨r, ?_, rfl⟩
    exact hperm.mem_iff.mpr (List.mem_filter.mpr ⟨hmem, by simpa using hdel⟩)

/-- Every row of the promotion list query carries the `", "`-joined distinct
product and category names of its id. -/
lemma promotion_query_aggs (db : PromotionDB) (row : PromotionSqlRow)
    (hrow : row ∈ promotion_list_query db) :
    row.products = aggJoin ", " (rowsFor db.applicable_products row.id)
    ∧ row.categories = aggJoin ", " (rowsFor db.applicable_categories row.id) := by
  unfold promotion_list_query at hrow
  rcases List.mem_map.mp hrow with ⟨r, hr, rfl⟩
  exact ⟨rfl, rfl⟩

/-- Claim C7: for an authorized role, the list endpoints answer the shaped
rows of the list query over the swept store, whose result set holds exactly
the non-deleted rows, ordered by id descending (non-increasing), each row
carrying the aggregated, separator-joined distinct product and category
name strings of its association rows (`","` in the discount router, `", "`
in the promotion router). -/
theorem c7_list_query_contents (role : String) (today : Day)
    (db : DiscountDB) (pdb : PromotionDB)
    (hrole : role ∈ ["admin", "manager", "cashier"]) :
    ((get_all_discounts role today db).2
      = Except.ok ((discount_list_query (auto_expire_discounts today db)).map
          shapeDiscountRow))
    ∧ List.Sorted (fun a b : Nat => b ≤ a)
        ((discount_list_query (auto_expire_discounts today db)).map DiscountSqlRow.id)
    ∧ (∀ n : Nat,
        n ∈ (discount_list_query (auto_expire_discounts today db)).map DiscountSqlRow.id
        ↔ ∃ r ∈ (auto_expire_discounts today db).discounts,
            r.isDeleted = false ∧ r.id = n)
    ∧ (∀ row ∈ discount_list_query (auto_expire_discounts today db),
        row.products
          = aggJoin "," (rowsFor (auto_expire_discounts today db).applicable_products row.id)
        ∧ row.categories
          = aggJoin "," (rowsFor (auto_expire_discounts today db).applicable_categories row.id))
    ∧ ((get_all_promotions role today pdb).2
      = Except.ok ((promotion_list_query (auto_expire_promotions today pdb)).map
          (shapePromotionRow (auto_expire_promotions today pdb))))
    ∧ List.Sorted (fun a b : Nat => b ≤ a)
        ((promotion_list_query (auto_expire_promotions today pdb)).map PromotionSqlRow.id)
    ∧ (∀ n : Nat,
        n ∈ (promotion_list_query (auto_expire_promotions today pdb)).map PromotionSqlRow.id
        ↔ ∃ r ∈ (auto_expire_promotions today pdb).promotions,
            r.isDeleted = false ∧ r.id = n)
    ∧ (∀ row ∈ promotion_list_query (auto_expire_promotions today pdb),
        row.products
          = aggJoin ", " (rowsFor (auto_expire_promotions today pdb).applicable_products row.id)
        ∧ row.categories
          = aggJoin ", " (rowsFor (auto_expire_promotions today pdb).applicable_categories row.id)) := by
  refine ⟨congrArg Prod.snd (get_all_discounts_ok role today db hrole),
    discount_query_sorted _, fun n => discount_query_mem _ n,
    fun row hrow => discount_query_aggs _ row hrow,
    congrArg Prod.snd (get_all_promotions_ok role today pdb hrole),
    promotion_query_sorted _, fun n => promotion_query_mem _ n,
    fun row hrow => promotion_query_aggs _ row hrow⟩

/-- Witness for C7 at a concrete role and concrete stores. -/
theorem c7_list_query_contents_witness :
    ((get_all_discounts "cashier" 500 twoRowDiscountDB).2
      = Except.ok ((discount_list_query (auto_expire_discounts 500 twoRowDiscountDB)).map
          shapeDiscountRow))
    ∧ List.Sorted (fun a b : Nat => b ≤ a)
        ((discount_list_query (auto_expire_discounts 500 twoRowDiscountDB)).map DiscountSqlRow.id)
    ∧ (∀ n : Nat,
        n ∈ (discount_list_query (auto_expire_discounts 500 twoRowDiscountDB)).map DiscountSqlRow.id
        ↔ ∃ r ∈ (auto_expire_discounts 500 twoRowDiscountDB).discounts,
            r.isDeleted = false ∧ r.id = n)
    ∧ (∀ row ∈ discount_list_query (auto_expire_discounts 500 twoRowDiscountDB),
        row.products
          = aggJoin "," (rowsFor (auto_expire_discounts 500 twoRowDiscountDB).applicable_products row.id)
        ∧ row.categories
          = aggJoin "," (rowsFor (auto_expire_discounts 500 twoRowDiscountDB).applicable_categories row.id))
    ∧ ((get_all_promotions "cashier" 500 oneRowPromotionDB).2
      = Except.ok ((promotion_list_query (auto_expire_promotions 500 oneRowPromotionDB)).map
          (shapePromotionRow (auto_expire_promotions 500 oneRowPromotionDB))))
    ∧ List.Sorted (fun a b : Nat => b ≤ a)
        ((promotion_list_query (auto_expire_promotions 500 oneRowPromotionDB)).map PromotionSqlRow.id)
    ∧ (∀ n : Nat,
        n ∈ (promotion_list_query (auto_expire_promotions 500 oneRowPromotionDB)).map PromotionSqlRow.id
        ↔ ∃ r ∈ (auto_expire_promotions 500 oneRowPromotionDB).promotions,
            r.isDeleted = false ∧ r.id = n)
    ∧ (∀ row ∈ promotion_list_query (auto_expire_promotions 500 oneRowPromotionDB),
        row.products
          = aggJoin ", " (rowsFor (auto_expire_promotions 500 oneRowPromotionDB).applicable_products row.id)
        ∧ row.categories
          = aggJoin ", " (rowsFor (auto_expire_promotions 500 oneRowPromotionDB).applicable_categories row.id)) :=
  c7_list_query_contents "cashier" 500 twoRowDiscountDB oneRowPromotionDB (by decide)

end DiscountServices
